import Mathlib

/-!
# Verification of the AI gateway module (`gemini.ts`)

A shallow embedding of the `gemini.ts` module of the AI-Based-Nomad-Plannar
repository: the seven zod response schemas, the Gemini call gateway
`callGeminiAPI`, and the seven feature operations built on it.

Modelling conventions:
* A JavaScript/JSON value is a `Json` tree.  JSON numbers are modelled as
  rationals (`ℚ`); `NaN`/`Infinity` do not occur in parsed JSON.  Objects are
  ordered association lists, mirroring JS insertion order.
* `JSON.parse` and `JSON.stringify` are platform builtins, not repository
  code; `JSON.parse` is passed to the gateway as an abstract
  `parse : String → Option Json` (`none` = `SyntaxError` thrown), while
  `JSON.stringify(x, null, 2)` is modelled concretely by `stringify2`.
* `fetch` is an abstract transport `fetch : String → Json → FetchResult`
  (url, request body); thrown JS exceptions become explicit error values.
* A thrown JS exception is a `JsError`: generic `Error`s (configuration and
  transport/upstream failures in this module) are `.error msg`, and zod's
  distinct `ZodError` class is `.zodError msg`.
* A zod schema is embedded as its validation function
  `Json → Except String Json` (the `String` being the zod issue message);
  `schema.parse` in the source is application of that function, with a
  failure rethrown by the feature operation as `JsError.zodError`.
-/

/-- A JSON value (also used for the JS values flowing through the module). -/
inductive Json where
  | null : Json
  | bool (b : Bool) : Json
  | num (q : ℚ) : Json
  | str (s : String) : Json
  | arr (elems : List Json) : Json
  | obj (fields : List (String × Json)) : Json

/-- First-match association-list lookup: JS property access on an object
(parsed JSON objects carry no duplicate keys). `none` models `undefined`. -/
def lookupField (k : String) : List (String × Json) → Option Json
  | [] => none
  | (k', v) :: rest => if k' = k then some v else lookupField k rest

/-- JS truthiness of a JSON value (`undefined` is handled by `Option`). -/
def truthy : Json → Bool
  | Json.null => false
  | Json.bool b => b
  | Json.num q => decide (q ≠ 0)
  | Json.str s => decide (s ≠ "")
  | Json.arr _ => true
  | Json.obj _ => true

/-- A thrown JS error, by catchable class: plain `Error` (used by the gateway
for configuration and transport/upstream failures) versus the `ZodError`
class thrown by schema validation. -/
inductive JsError where
  | error (msg : String) : JsError
  | zodError (msg : String) : JsError
deriving DecidableEq

/-- Outcome of the single `fetch` call: network-level exception, non-ok HTTP
response (status and raw error body), or ok response with parsed JSON body. -/
inductive FetchResult where
  | networkError (msg : String) : FetchResult
  | httpError (status : Nat) (body : String) : FetchResult
  | success (data : Json) : FetchResult

/-! ## zod validator combinators

Each zod schema node is embedded as a function `Json → Except String Json`
returning the validated (possibly key-stripped) value, per zod semantics:
`z.object` requires declared non-optional keys, validates declared keys that
are present, drops undeclared keys, and rebuilds the object in declaration
order with absent optional keys omitted. -/

/-- `z.string()` -/
def vString : Json → Except String Json
  | Json.str s => Except.ok (Json.str s)
  | _ => Except.error "Expected string"

/-- `z.boolean()` -/
def vBool : Json → Except String Json
  | Json.bool b => Except.ok (Json.bool b)
  | _ => Except.error "Expected boolean"

/-- `z.number()` -/
def vNum : Json → Except String Json
  | Json.num q => Except.ok (Json.num q)
  | _ => Except.error "Expected number"

/-- `z.number().min(lo).max(hi)` -/
def vNumRange (lo hi : ℚ) : Json → Except String Json
  | Json.num q =>
      if lo ≤ q ∧ q ≤ hi then Except.ok (Json.num q)
      else Except.error "Number out of range"
  | _ => Except.error "Expected number"

/-- `z.enum([...])` -/
def vEnum (vals : List String) : Json → Except String Json
  | Json.str s =>
      if vals.contains s then Except.ok (Json.str s)
      else Except.error "Invalid enum value"
  | _ => Except.error "Expected enum string"

/-- Element-wise validation of an array's elements, first failure wins. -/
def vList (elem : Json → Except String Json) : List Json → Except String (List Json)
  | [] => Except.ok []
  | x :: xs => do
      let y ← elem x
      let ys ← vList elem xs
      Except.ok (y :: ys)

/-- `z.array(elem)`: validate every element, keep order. -/
def vArray (elem : Json → Except String Json) : Json → Except String Json
  | Json.arr xs => do
      let ys ← vList elem xs
      Except.ok (Json.arr ys)
  | _ => Except.error "Expected array"

/-- A required key of a `z.object`: absent means a zod issue. -/
def reqField (fs : List (String × Json)) (k : String)
    (v : Json → Except String Json) : Except String Json :=
  match lookupField k fs with
  | none => Except.error ("Required: " ++ k)
  | some j => v j

/-- An `.optional()` key of a `z.object`: absent is fine and will be omitted
from the output object. -/
def optField (fs : List (String × Json)) (k : String)
    (v : Json → Except String Json) : Except String (Option Json) :=
  match lookupField k fs with
  | none => Except.ok none
  | some j => do
      let j' ← v j
      Except.ok (some j')

/-- Output entry for an optional key: omitted when absent. -/
def optEntry (k : String) : Option Json → List (String × Json)
  | none => []
  | some j => [(k, j)]

/-! ## The seven response schemas (validators) -/

/-- Element schema of `conflictAnalysisSchema.suggestedSolutions`. -/
def suggestedSolutionSchema : Json → Except String Json
  | Json.obj fs => do
      let d ← reqField fs "description" vString
      let p ← reqField fs "pros" (vArray vString)
      let c ← reqField fs "cons" (vArray vString)
      Except.ok (Json.obj [("description", d), ("pros", p), ("cons", c)])
  | _ => Except.error "Expected object"

/-- `conflictAnalysisSchema` (Smart Calendar Integration). -/
def conflictAnalysisSchema : Json → Except String Json
  | Json.obj fs => do
      let h ← reqField fs "hasConflict" vBool
      let det ← optField fs "conflictDetails" vString
      let sols ← optField fs "suggestedSolutions" (vArray suggestedSolutionSchema)
      Except.ok (Json.obj ([("hasConflict", h)]
        ++ optEntry "conflictDetails" det
        ++ optEntry "suggestedSolutions" sols))
  | _ => Except.error "Expected object"

/-- Element schema of `coworkingRecommendationSchema.recommendations`. -/
def coworkingVenueSchema : Json → Except String Json
  | Json.obj fs => do
      let n ← reqField fs "name" vString
      let loc ← reqField fs "location" vString
      let rat ← optField fs "rating" vString
      let pr ← reqField fs "price" vString
      let isp ← optField fs "internetSpeed" vString
      let am ← reqField fs "amenities" (vArray vString)
      let mc ← reqField fs "matchingCriteria" (vArray vString)
      let pd ← reqField fs "potentialDrawbacks" (vArray vString)
      let rk ← reqField fs "rank" (vNumRange 1 5)
      Except.ok (Json.obj ([("name", n), ("location", loc)]
        ++ optEntry "rating" rat
        ++ [("price", pr)]
        ++ optEntry "internetSpeed" isp
        ++ [("amenities", am), ("matchingCriteria", mc),
            ("potentialDrawbacks", pd), ("rank", rk)]))
  | _ => Except.error "Expected object"

/-- `coworkingRecommendationSchema` (Co-working Space Recommendation). -/
def coworkingRecommendationSchema : Json → Except String Json
  | Json.obj fs => do
      let recs ← reqField fs "recommendations" (vArray coworkingVenueSchema)
      let sum ← reqField fs "recommendationSummary" vString
      Except.ok (Json.obj [("recommendations", recs),
        ("recommendationSummary", sum)])
  | _ => Except.error "Expected object"

/-- Element schema of `impactAssessment` inside `timeZoneRecommendationSchema`. -/
def impactAssessmentSchema : Json → Except String Json
  | Json.obj fs => do
      let loc ← reqField fs "location" vString
      let lt ← reqField fs "localTime" vString
      let im ← reqField fs "impact" (vEnum ["Optimal", "Acceptable", "Challenging"])
      Except.ok (Json.obj [("location", loc), ("localTime", lt), ("impact", im)])
  | _ => Except.error "Expected object"

/-- Element schema of `optimalMeetingTimes` inside `timeZoneRecommendationSchema`. -/
def meetingTimeSchema : Json → Except String Json
  | Json.obj fs => do
      let st ← reqField fs "startTime" vString
      let et ← reqField fs "endTime" vString
      let ia ← reqField fs "impactAssessment" (vArray impactAssessmentSchema)
      let r ← reqField fs "reasoning" vString
      Except.ok (Json.obj [("startTime", st), ("endTime", et),
        ("impactAssessment", ia), ("reasoning", r)])
  | _ => Except.error "Expected object"

/-- `timeZoneRecommendationSchema` (Time Zone Management). -/
def timeZoneRecommendationSchema : Json → Except String Json
  | Json.obj fs => do
      let omt ← reqField fs "optimalMeetingTimes" (vArray meetingTimeSchema)
      let tips ← optField fs "jetlagManagementTips" (vArray vString)
      Except.ok (Json.obj ([("optimalMeetingTimes", omt)]
        ++ optEntry "jetlagManagementTips" tips))
  | _ => Except.error "Expected object"

/-- Element schema of `categorizedExpenses` inside `budgetAnalysisSchema`. -/
def categorizedExpenseSchema : Json → Except String Json
  | Json.obj fs => do
      let c ← reqField fs "category" vString
      let a ← reqField fs "amount" vNum
      let p ← reqField fs "percentage" vNum
      let w ← reqField fs "workRelated" vBool
      Except.ok (Json.obj [("category", c), ("amount", a),
        ("percentage", p), ("workRelated", w)])
  | _ => Except.error "Expected object"

/-- `comparisonToAverage` sub-schema of `budgetAnalysisSchema`. -/
def comparisonToAverageSchema : Json → Except String Json
  | Json.obj fs => do
      let s ← reqField fs "status" (vEnum ["Above average", "Below average", "Average"])
      let d ← reqField fs "details" vString
      Except.ok (Json.obj [("status", s), ("details", d)])
  | _ => Except.error "Expected object"

/-- Element schema of `recommendations` inside `budgetAnalysisSchema`. -/
def budgetRecommendationSchema : Json → Except String Json
  | Json.obj fs => do
      let d ← reqField fs "description" vString
      let ps ← optField fs "potentialSavings" vNum
      let id ← reqField fs "implementationDifficulty" (vEnum ["Easy", "Medium", "Hard"])
      Except.ok (Json.obj ([("description", d)]
        ++ optEntry "potentialSavings" ps
        ++ [("implementationDifficulty", id)]))
  | _ => Except.error "Expected object"

/-- `budgetAnalysisSchema` (Budget Analysis). -/
def budgetAnalysisSchema : Json → Except String Json
  | Json.obj fs => do
      let ce ← reqField fs "categorizedExpenses" (vArray categorizedExpenseSchema)
      let cmp ← reqField fs "comparisonToAverage" comparisonToAverageSchema
      let recs ← reqField fs "recommendations" (vArray budgetRecommendationSchema)
      Except.ok (Json.obj [("categorizedExpenses", ce),
        ("comparisonToAverage", cmp), ("recommendations", recs)])
  | _ => Except.error "Expected object"

/-- Element schema of `communityRecommendationSchema.recommendations`. -/
def communityEntrySchema : Json → Except String Json
  | Json.obj fs => do
      let n ← reqField fs "name" vString
      let t ← reqField fs "type" vString
      let rs ← reqField fs "relevanceScore" (vNumRange 1 10)
      let d ← reqField fs "description" vString
      let cm ← optField fs "contactMethod" vString
      let mi ← reqField fs "matchingInterests" (vArray vString)
      let na ← reqField fs "networkingApproach" vString
      Except.ok (Json.obj ([("name", n), ("type", t),
        ("relevanceScore", rs), ("description", d)]
        ++ optEntry "contactMethod" cm
        ++ [("matchingInterests", mi), ("networkingApproach", na)]))
  | _ => Except.error "Expected object"

/-- `communityRecommendationSchema` (Community Connection). -/
def communityRecommendationSchema : Json → Except String Json
  | Json.obj fs => do
      let recs ← reqField fs "recommendations" (vArray communityEntrySchema)
      Except.ok (Json.obj [("recommendations", recs)])
  | _ => Except.error "Expected object"

/-- Optional `visaRequirements` sub-schema of `legalResourceSchema`. -/
def visaRequirementsSchema : Json → Except String Json
  | Json.obj fs => do
      let rv ← reqField fs "requiredVisa" vString
      let sd ← reqField fs "stayDuration" vString
      let ap ← reqField fs "applicationProcess" vString
      let rd ← reqField fs "requiredDocuments" (vArray vString)
      let pt ← reqField fs "processingTime" vString
      let fe ← reqField fs "fees" vString
      Except.ok (Json.obj [("requiredVisa", rv), ("stayDuration", sd),
        ("applicationProcess", ap), ("requiredDocuments", rd),
        ("processingTime", pt), ("fees", fe)])
  | _ => Except.error "Expected object"

/-- Optional `taxImplications` sub-schema of `legalResourceSchema`. -/
def taxImplicationsSchema : Json → Except String Json
  | Json.obj fs => do
      let ts ← reqField fs "taxStatus" vString
      let rr ← reqField fs "reportingRequirements" vString
      let tr ← optField fs "treatiesSummary" vString
      let kc ← reqField fs "keyConsiderations" (vArray vString)
      Except.ok (Json.obj ([("taxStatus", ts), ("reportingRequirements", rr)]
        ++ optEntry "treatiesSummary" tr
        ++ [("keyConsiderations", kc)]))
  | _ => Except.error "Expected object"

/-- Optional `workLegality` sub-schema of `legalResourceSchema`. -/
def workLegalitySchema : Json → Except String Json
  | Json.obj fs => do
      let ls ← reqField fs "legalStatus" vString
      let rs ← optField fs "restrictions" (vArray vString)
      let ps ← optField fs "permissions" (vArray vString)
      Except.ok (Json.obj ([("legalStatus", ls)]
        ++ optEntry "restrictions" rs
        ++ optEntry "permissions" ps))
  | _ => Except.error "Expected object"

/-- Element schema of `authoritativeSources` inside `legalResourceSchema`. -/
def authoritativeSourceSchema : Json → Except String Json
  | Json.obj fs => do
      let n ← reqField fs "name" vString
      let u ← optField fs "url" vString
      let d ← reqField fs "description" vString
      Except.ok (Json.obj ([("name", n)]
        ++ optEntry "url" u
        ++ [("description", d)]))
  | _ => Except.error "Expected object"

/-- `legalResourceSchema` (Legal Resource). -/
def legalResourceSchema : Json → Except String Json
  | Json.obj fs => do
      let vr ← optField fs "visaRequirements" visaRequirementsSchema
      let ti ← optField fs "taxImplications" taxImplicationsSchema
      let wl ← optField fs "workLegality" workLegalitySchema
      let src ← reqField fs "authoritativeSources" (vArray authoritativeSourceSchema)
      let dis ← reqField fs "disclaimer" vString
      Except.ok (Json.obj (optEntry "visaRequirements" vr
        ++ optEntry "taxImplications" ti
        ++ optEntry "workLegality" wl
        ++ [("authoritativeSources", src), ("disclaimer", dis)]))
  | _ => Except.error "Expected object"

/-- `assistantResponseSchema` (generic AI assistant). -/
def assistantResponseSchema : Json → Except String Json
  | Json.obj fs => do
      let r ← reqField fs "response" vString
      let rm ← optField fs "relatedModules" (vArray vString)
      let sa ← optField fs "suggestedActions" (vArray vString)
      Except.ok (Json.obj ([("response", r)]
        ++ optEntry "relatedModules" rm
        ++ optEntry "suggestedActions" sa))
  | _ => Except.error "Expected object"

/-! ## `JSON.stringify(x, null, 2)`

A concrete model of the pretty-printing serializer used by the prompt
builders.  String escaping covers the common escapes; rational numbers are
rendered via their integer part when integral and `Rat`'s representation
otherwise (the exact numeral rendering of JS doubles is schematic — no claim
inspects the rendering of numbers). -/

/-- Escape one character as inside a JSON string literal. -/
def escapeJsonChar (c : Char) : String :=
  if c = '"' then "\\\""
  else if c = '\\' then "\\\\"
  else if c = '\n' then "\\n"
  else if c = '\r' then "\\r"
  else if c = '\t' then "\\t"
  else String.mk [c]

/-- Quote a string as a JSON string literal. -/
def quoteJsonString (s : String) : String :=
  "\"" ++ String.join (s.data.map escapeJsonChar) ++ "\""

/-- Render a JSON number (integral rationals print as integers). -/
def jsonNumRepr (q : ℚ) : String :=
  if q.den = 1 then toString q.num else toString q

/-- `n` spaces of indentation. -/
def indentStr (n : Nat) : String :=
  String.mk (List.replicate n ' ')

mutual

/-- Pretty-print a JSON value at indentation level `ind`, as
`JSON.stringify(·, null, 2)` does. -/
def stringifyAux (ind : Nat) : Json → String
  | Json.null => "null"
  | Json.bool true => "true"
  | Json.bool false => "false"
  | Json.num q => jsonNumRepr q
  | Json.str s => quoteJsonString s
  | Json.arr xs =>
      match xs with
      | [] => "[]"
      | _ :: _ =>
          "[\n" ++ String.intercalate ",\n" (stringifyItems (ind + 2) xs)
            ++ "\n" ++ indentStr ind ++ "]"
  | Json.obj fs =>
      match fs with
      | [] => "\x7b\x7d"
      | _ :: _ =>
          "\x7b\n" ++ String.intercalate ",\n" (stringifyEntries (ind + 2) fs)
            ++ "\n" ++ indentStr ind ++ "\x7d"

/-- Pretty-print array elements, each on its own indented line. -/
def stringifyItems (ind : Nat) : List Json → List String
  | [] => []
  | x :: xs => (indentStr ind ++ stringifyAux ind x) :: stringifyItems ind xs

/-- Pretty-print object entries, each on its own indented line. -/
def stringifyEntries (ind : Nat) : List (String × Json) → List String
  | [] => []
  | (k, v) :: fs =>
      (indentStr ind ++ quoteJsonString k ++ ": " ++ stringifyAux ind v)
        :: stringifyEntries ind fs

end

/-- `JSON.stringify(x, null, 2)`. -/
def stringify2 (x : Json) : String := stringifyAux 0 x

/-! ## The gateway: `callGeminiAPI` -/

/-- The fixed endpoint with the credential appended (line 158 of the source). -/
def geminiUrl (apiKey : String) : String :=
  "https://generativelanguage.googleapis.com/v1beta/models/gemini-pro:generateContent?key="
    ++ apiKey

/-- The generation-parameter defaults spread first into `generationConfig`. -/
def generationDefaults : List (String × Json) :=
  [("temperature", Json.num (7/10)),
   ("topK", Json.num 40),
   ("topP", Json.num (19/20)),
   ("maxOutputTokens", Json.num 8192)]

/-- JS object spread `{...base, ...overrides}` on duplicate-free field lists:
keys of `base` in order with overridden values, then the fresh keys of
`overrides` in order. -/
def mergeSpread (base overrides : List (String × Json)) : List (String × Json) :=
  base.map (fun kv =>
    match lookupField kv.1 overrides with
    | some v => (kv.1, v)
    | none => kv)
  ++ overrides.filter (fun kv => (lookupField kv.1 base).isNone)

/-- The `generationConfig` object: defaults overridden by `modelParams`. -/
def generationConfig (modelParams : List (String × Json)) : List (String × Json) :=
  mergeSpread generationDefaults modelParams

/-- The request body built at lines 160–173 of the source. -/
def geminiPayload (prompt : String) (modelParams : List (String × Json)) : Json :=
  Json.obj
    [("contents", Json.arr [Json.obj
        [("parts", Json.arr [Json.obj [("text", Json.str prompt)]])]]),
     ("generationConfig", Json.obj (generationConfig modelParams))]

/-- `candidate.content.parts[0].text` when that access path yields a string. -/
def textOf (candidate : Json) : Option String :=
  match candidate with
  | Json.obj cf =>
      match lookupField "content" cf with
      | some (Json.obj cc) =>
          match lookupField "parts" cc with
          | some (Json.arr (p :: _)) =>
              match p with
              | Json.obj pf =>
                  match lookupField "text" pf with
                  | some (Json.str t) => some t
                  | _ => none
              | _ => none
          | _ => none
      | _ => none
  | _ => none

/-- Lines 191–204 of the source: the handling of a parsed ok response body.
`!data.candidates || data.candidates.length === 0` throws the
"No response generated" `Error`; otherwise the first candidate's text is
extracted and `JSON.parse`d, a `SyntaxError` (`parse t = none`) being
downgraded to the `{rawResponse}` wrapper.  A JS `TypeError` from the
property accesses on ill-shaped data (including a `null` body) is modelled
as a generic thrown `Error "TypeError"`; a non-string `text` value is
folded into that schematic case. -/
def processData (parse : String → Option Json) (data : Json) : Except JsError Json :=
  match data with
  | Json.obj fs =>
      match lookupField "candidates" fs with
      | none => Except.error (JsError.error "No response generated from Gemini API")
      | some c =>
          if truthy c then
            match c with
            | Json.arr [] =>
                Except.error (JsError.error "No response generated from Gemini API")
            | Json.arr (c0 :: _) =>
                match textOf c0 with
                | some t =>
                    match parse t with
                    | some j => Except.ok j
                    | none => Except.ok (Json.obj [("rawResponse", Json.str t)])
                | none => Except.error (JsError.error "TypeError")
            | _ => Except.error (JsError.error "TypeError")
          else Except.error (JsError.error "No response generated from Gemini API")
  | Json.null => Except.error (JsError.error "TypeError")
  | _ => Except.error (JsError.error "No response generated from Gemini API")

/-- The "extracted text payload" of an ok response body: the string reached
through `data.candidates[0].content.parts[0].text`. -/
def extractedText (data : Json) : Option String :=
  match data with
  | Json.obj fs =>
      match lookupField "candidates" fs with
      | some (Json.arr (c0 :: _)) => textOf c0
      | _ => none
  | _ => none

/-- `callGeminiAPI` (lines 146–209 of the source).  `parse` stands for the
`JSON.parse` builtin, `env` for `process.env.GEMINI_API_KEY`, `fetch` for the
transport (taking the url and the request body).  The returned `Nat` counts
the network calls issued.  The unused `context` parameter of the source
(reserved, never read) is omitted.  The source's `catch` block re-throws the
caught error unchanged after logging, so it does not alter the result. -/
def callGeminiAPI (parse : String → Option Json) (env : Option String)
    (fetch : String → Json → FetchResult) (prompt : String)
    (modelParams : List (String × Json)) : Except JsError Json × Nat :=
  let apiKey := env.getD ""
  if apiKey = "" then
    (Except.error (JsError.error
      "Gemini API key not found. Please set the GEMINI_API_KEY environment variable."), 0)
  else
    match fetch (geminiUrl apiKey) (geminiPayload prompt modelParams) with
    | FetchResult.networkError msg => (Except.error (JsError.error msg), 1)
    | FetchResult.httpError status body =>
        (Except.error (JsError.error
          ("Gemini API error: " ++ toString status ++ " - " ++ body)), 1)
    | FetchResult.success data => (processData parse data, 1)

/-! ## Prompt builders

Each feature operation builds its prompt from a template literal; the
templates are transcribed verbatim (newlines and indentation included,
`\x7b`/`\x7d` are the literal braces of the JSON shape descriptions), with
the interpolated expression splitting each template into a head and a tail. -/

/-- Text before `${JSON.stringify(events, null, 2)}` in `analyzeCalendarConflicts`. -/
def conflictPromptHead : String :=
  "\n    You are an AI assistant for a digital nomad planner application. Analyze these calendar events:\n    "

/-- Text after the interpolation in `analyzeCalendarConflicts`. -/
def conflictPromptTail : String :=
  "\n    \n    Identify any conflicts, especially between work and travel events. Explain the specific issues, \n    and suggest three alternative scheduling options that minimize disruption. \n    \n    Format your response as JSON with these fields:\n    \x7b\n      \"hasConflict\": boolean,\n      \"conflictDetails\": string (only if hasConflict is true),\n      \"suggestedSolutions\": [\n        \x7b\n          \"description\": string,\n          \"pros\": [string],\n          \"cons\": [string]\n        \x7d\n      ] (only if hasConflict is true)\n    \x7d\n  "

/-- The prompt of `analyzeCalendarConflicts` (lines 213–232). -/
def conflictPrompt (events : Json) : String :=
  conflictPromptHead ++ stringify2 events ++ conflictPromptTail

/-- Text before `${JSON.stringify(preferences, null, 2)}` in `getCoworkingRecommendations`. -/
def coworkingPromptHead : String :=
  "\n    You are an AI assistant for a digital nomad planner application. Based on the following user preferences and location data:\n    "

/-- Text after the interpolation in `getCoworkingRecommendations`. -/
def coworkingPromptTail : String :=
  "\n    \n    Recommend three suitable co-working spaces, with detailed information about each option \n    including why it matches the user\x27s criteria, any potential drawbacks, and a final ranking. \n    \n    Format your response as JSON with this structure:\n    \x7b\n      \"recommendations\": [\n        \x7b\n          \"name\": string,\n          \"location\": string,\n          \"rating\": string,\n          \"price\": string,\n          \"internetSpeed\": string,\n          \"amenities\": [string],\n          \"matchingCriteria\": [string],\n          \"potentialDrawbacks\": [string],\n          \"rank\": number (1-5)\n        \x7d\n      ],\n      \"recommendationSummary\": string\n    \x7d\n  "

/-- The prompt of `getCoworkingRecommendations` (lines 239–263). -/
def coworkingPrompt (preferences : Json) : String :=
  coworkingPromptHead ++ stringify2 preferences ++ coworkingPromptTail

/-- Text before `${JSON.stringify(teamInfo, null, 2)}` in `getTimeZoneRecommendations`. -/
def timeZonePromptHead : String :=
  "\n    You are an AI assistant for a digital nomad planner application. The user has team members in the following locations:\n    "

/-- Text after the interpolation in `getTimeZoneRecommendations`. -/
def timeZonePromptTail : String :=
  "\n    \n    Suggest three optimal time slots that maximize team member waking hours (7 AM - 10 PM local time).\n    Include reasoning for each suggestion and identify which team members might be most inconvenienced by each option.\n    \n    Format your response as JSON with this structure:\n    \x7b\n      \"optimalMeetingTimes\": [\n        \x7b\n          \"startTime\": string (ISO format),\n          \"endTime\": string (ISO format),\n          \"impactAssessment\": [\n            \x7b\n              \"location\": string,\n              \"localTime\": string,\n              \"impact\": string (Optimal/Acceptable/Challenging)\n            \x7d\n          ],\n          \"reasoning\": string\n        \x7d\n      ],\n      \"jetlagManagementTips\": [string] (optional)\n    \x7d\n  "

/-- The prompt of `getTimeZoneRecommendations` (lines 270–295). -/
def timeZonePrompt (teamInfo : Json) : String :=
  timeZonePromptHead ++ stringify2 teamInfo ++ timeZonePromptTail

/-- Text before `${JSON.stringify(expenseData, null, 2)}` in `analyzeBudget`. -/
def budgetPromptHead : String :=
  "\n    You are an AI assistant for a digital nomad planner application. Analyze this user\x27s expense data:\n    "

/-- Text after the interpolation in `analyzeBudget`. -/
def budgetPromptTail : String :=
  "\n    \n    Categorize each expense as either work-related, travel-related, or mixed. Provide a detailed \n    analysis of their spending patterns, compare it to typical digital nomad costs in that location, \n    and suggest three specific ways they could optimize their budget.\n    \n    Format your response as JSON with this structure:\n    \x7b\n      \"categorizedExpenses\": [\n        \x7b\n          \"category\": string,\n          \"amount\": number,\n          \"percentage\": number,\n          \"workRelated\": boolean\n        \x7d\n      ],\n      \"comparisonToAverage\": \x7b\n        \"status\": string (Above average/Below average/Average),\n        \"details\": string\n      \x7d,\n      \"recommendations\": [\n        \x7b\n          \"description\": string,\n          \"potentialSavings\": number,\n          \"implementationDifficulty\": string (Easy/Medium/Hard)\n        \x7d\n      ]\n    \x7d\n  "

/-- The prompt of `analyzeBudget` (lines 302–332). -/
def budgetPrompt (expenseData : Json) : String :=
  budgetPromptHead ++ stringify2 expenseData ++ budgetPromptTail

/-- Text before `${JSON.stringify(userProfile, null, 2)}` in `getCommunityRecommendations`. -/
def communityPromptHead : String :=
  "\n    You are an AI assistant for a digital nomad planner application. The user has provided the following information:\n    "

/-- Text after the interpolation in `getCommunityRecommendations`. -/
def communityPromptTail : String :=
  "\n    \n    Recommend five specific community events or groups they should connect with in their location, \n    including a detailed explanation of why each recommendation matches their profile, specific contact \n    methods or locations, and best approaches for making meaningful connections.\n    \n    Format your response as JSON with this structure:\n    \x7b\n      \"recommendations\": [\n        \x7b\n          \"name\": string,\n          \"type\": string,\n          \"relevanceScore\": number (1-10),\n          \"description\": string,\n          \"contactMethod\": string,\n          \"matchingInterests\": [string],\n          \"networkingApproach\": string\n        \x7d\n      ]\n    \x7d\n  "

/-- The prompt of `getCommunityRecommendations` (lines 339–361). -/
def communityPrompt (userProfile : Json) : String :=
  communityPromptHead ++ stringify2 userProfile ++ communityPromptTail

/-- `${query.question}` of `getLegalResources`: the embedded string when
`question` is a string, JS coercion otherwise (`undefined` when the key is
absent; the coercion of compound values is schematic — no claim touches it). -/
def questionText (query : Json) : String :=
  match query with
  | Json.obj fs =>
      match lookupField "question" fs with
      | some (Json.str s) => s
      | some Json.null => "null"
      | some (Json.bool true) => "true"
      | some (Json.bool false) => "false"
      | some (Json.num q) => jsonNumRepr q
      | some _ => "[object]"
      | none => "undefined"
  | _ => "undefined"

/-- Text before `${query.question}` in `getLegalResources`. -/
def legalPromptHead : String :=
  "\n    You are an AI assistant for a digital nomad planner application. The user has asked:\n    \""

/-- Text after the interpolation in `getLegalResources`. -/
def legalPromptTail : String :=
  "\"\n    \n    Provide comprehensive information about relevant visa options, tax considerations, and work legality \n    for digital nomads. Format your response with clear sections, highlighting key requirements, application \n    processes, timelines, and authoritative sources where they can find official information.\n    \n    Make clear you\x27re providing general information, not legal advice. Format as structured JSON with this structure:\n    \x7b\n      \"visaRequirements\": \x7b\n        \"requiredVisa\": string,\n        \"stayDuration\": string,\n        \"applicationProcess\": string,\n        \"requiredDocuments\": [string],\n        \"processingTime\": string,\n        \"fees\": string\n      \x7d,\n      \"taxImplications\": \x7b\n        \"taxStatus\": string,\n        \"reportingRequirements\": string,\n        \"treatiesSummary\": string,\n        \"keyConsiderations\": [string]\n      \x7d,\n      \"workLegality\": \x7b\n        \"legalStatus\": string,\n        \"restrictions\": [string],\n        \"permissions\": [string]\n      \x7d,\n      \"authoritativeSources\": [\n        \x7b\n          \"name\": string,\n          \"url\": string,\n          \"description\": string\n        \x7d\n      ],\n      \"disclaimer\": string\n    \x7d\n  "

/-- The prompt of `getLegalResources` (lines 368–406): only the string
coercion of `query.question` is embedded, not a serialization of `query`. -/
def legalPrompt (query : Json) : String :=
  legalPromptHead ++ questionText query ++ legalPromptTail

/-- Text before `${query}` in `getAssistantResponse`. -/
def assistantPromptHead : String :=
  "\n    You are an AI assistant for a digital nomad planner application. The user has asked:\n    \""

/-- Text after the interpolation in `getAssistantResponse`. -/
def assistantPromptTail : String :=
  "\"\n    \n    Provide a helpful response addressing their question. Focus on being concise, informative, and actionable.\n    \n    Format your response as JSON with this structure:\n    \x7b\n      \"response\": string,\n      \"relatedModules\": [string] (optional),\n      \"suggestedActions\": [string] (optional)\n    \x7d\n  "

/-- The prompt of `getAssistantResponse` (lines 413–425); `query` is already
a string and is embedded directly. -/
def assistantPrompt (query : String) : String :=
  assistantPromptHead ++ query ++ assistantPromptTail

/-! ## The seven feature operations

Each operation builds its prompt, calls the gateway (with the default empty
`modelParams`), and validates the gateway's result against its schema; a zod
failure is thrown as the distinct `ZodError` class.  The network call count
of the gateway is threaded through. -/

/-- `analyzeCalendarConflicts` (lines 212–236). -/
def analyzeCalendarConflicts (parse : String → Option Json) (env : Option String)
    (fetch : String → Json → FetchResult) (events : Json) : Except JsError Json × Nat :=
  match callGeminiAPI parse env fetch (conflictPrompt events) [] with
  | (Except.ok result, n) =>
      match conflictAnalysisSchema result with
      | Except.ok v => (Except.ok v, n)
      | Except.error m => (Except.error (JsError.zodError m), n)
  | (Except.error e, n) => (Except.error e, n)

/-- `getCoworkingRecommendations` (lines 238–267). -/
def getCoworkingRecommendations (parse : String → Option Json) (env : Option String)
    (fetch : String → Json → FetchResult) (preferences : Json) : Except JsError Json × Nat :=
  match callGeminiAPI parse env fetch (coworkingPrompt preferences) [] with
  | (Except.ok result, n) =>
      match coworkingRecommendationSchema result with
      | Except.ok v => (Except.ok v, n)
      | Except.error m => (Except.error (JsError.zodError m), n)
  | (Except.error e, n) => (Except.error e, n)

/-- `getTimeZoneRecommendations` (lines 269–299). -/
def getTimeZoneRecommendations (parse : String → Option Json) (env : Option String)
    (fetch : String → Json → FetchResult) (teamInfo : Json) : Except JsError Json × Nat :=
  match callGeminiAPI parse env fetch (timeZonePrompt teamInfo) [] with
  | (Except.ok result, n) =>
      match timeZoneRecommendationSchema result with
      | Except.ok v => (Except.ok v, n)
      | Except.error m => (Except.error (JsError.zodError m), n)
  | (Except.error e, n) => (Except.error e, n)

/-- `analyzeBudget` (lines 301–336). -/
def analyzeBudget (parse : String → Option Json) (env : Option String)
    (fetch : String → Json → FetchResult) (expenseData : Json) : Except JsError Json × Nat :=
  match callGeminiAPI parse env fetch (budgetPrompt expenseData) [] with
  | (Except.ok result, n) =>
      match budgetAnalysisSchema result with
      | Except.ok v => (Except.ok v, n)
      | Except.error m => (Except.error (JsError.zodError m), n)
  | (Except.error e, n) => (Except.error e, n)

/-- `getCommunityRecommendations` (lines 338–365). -/
def getCommunityRecommendations (parse : String → Option Json) (env : Option String)
    (fetch : String → Json → FetchResult) (userProfile : Json) : Except JsError Json × Nat :=
  match callGeminiAPI parse env fetch (communityPrompt userProfile) [] with
  | (Except.ok result, n) =>
      match communityRecommendationSchema result with
      | Except.ok v => (Except.ok v, n)
      | Except.error m => (Except.error (JsError.zodError m), n)
  | (Except.error e, n) => (Except.error e, n)

/-- `getLegalResources` (lines 367–410). -/
def getLegalResources (parse : String → Option Json) (env : Option String)
    (fetch : String → Json → FetchResult) (query : Json) : Except JsError Json × Nat :=
  match callGeminiAPI parse env fetch (legalPrompt query) [] with
  | (Except.ok result, n) =>
      match legalResourceSchema result with
      | Except.ok v => (Except.ok v, n)
      | Except.error m => (Except.error (JsError.zodError m), n)
  | (Except.error e, n) => (Except.error e, n)

/-- `getAssistantResponse` (lines 412–429). -/
def getAssistantResponse (parse : String → Option Json) (env : Option String)
    (fetch : String → Json → FetchResult) (query : String) : Except JsError Json × Nat :=
  match callGeminiAPI parse env fetch (assistantPrompt query) [] with
  | (Except.ok result, n) =>
      match assistantResponseSchema result with
      | Except.ok v => (Except.ok v, n)
      | Except.error m => (Except.error (JsError.zodError m), n)
  | (Except.error e, n) => (Except.error e, n)

/-! ## Typed response values and their canonical JSON encodings

One Lean structure per `z.infer` type of the source.  `encode…` produces the
canonical JSON form of such a value: exactly the declared keys, in schema
declaration order, with absent optional keys omitted.  Range-constrained
numbers carry their range proof in the structure. -/

/-- Element type of `ConflictAnalysis.suggestedSolutions`. -/
structure SuggestedSolution where
  description : String
  pros : List String
  cons : List String

/-- `ConflictAnalysis` (`z.infer<typeof conflictAnalysisSchema>`). -/
structure ConflictAnalysis where
  hasConflict : Bool
  conflictDetails : Option String
  suggestedSolutions : Option (List SuggestedSolution)

/-- Canonical encoding of a `SuggestedSolution`. -/
def encodeSolution (s : SuggestedSolution) : Json :=
  Json.obj [("description", Json.str s.description),
    ("pros", Json.arr (s.pros.map Json.str)),
    ("cons", Json.arr (s.cons.map Json.str))]

/-- Canonical encoding of a `ConflictAnalysis`. -/
def encodeConflict (c : ConflictAnalysis) : Json :=
  Json.obj ([("hasConflict", Json.bool c.hasConflict)]
    ++ optEntry "conflictDetails" (c.conflictDetails.map Json.str)
    ++ optEntry "suggestedSolutions"
        (c.suggestedSolutions.map (fun l => Json.arr (l.map encodeSolution))))

/-- Element type of `CoworkingRecommendation.recommendations`. -/
structure CoworkingVenue where
  name : String
  location : String
  rating : Option String
  price : String
  internetSpeed : Option String
  amenities : List String
  matchingCriteria : List String
  potentialDrawbacks : List String
  rank : ℚ
  rank_ge : 1 ≤ rank
  rank_le : rank ≤ 5

/-- `CoworkingRecommendation` (`z.infer<typeof coworkingRecommendationSchema>`). -/
structure CoworkingRecommendation where
  recommendations : List CoworkingVenue
  recommendationSummary : String

/-- Canonical encoding of a `CoworkingVenue`. -/
def encodeVenue (v : CoworkingVenue) : Json :=
  Json.obj ([("name", Json.str v.name), ("location", Json.str v.location)]
    ++ optEntry "rating" (v.rating.map Json.str)
    ++ [("price", Json.str v.price)]
    ++ optEntry "internetSpeed" (v.internetSpeed.map Json.str)
    ++ [("amenities", Json.arr (v.amenities.map Json.str)),
        ("matchingCriteria", Json.arr (v.matchingCriteria.map Json.str)),
        ("potentialDrawbacks", Json.arr (v.potentialDrawbacks.map Json.str)),
        ("rank", Json.num v.rank)])

/-- Canonical encoding of a `CoworkingRecommendation`. -/
def encodeCoworking (c : CoworkingRecommendation) : Json :=
  Json.obj [("recommendations", Json.arr (c.recommendations.map encodeVenue)),
    ("recommendationSummary", Json.str c.recommendationSummary)]

/-- The `impact` enumeration of the time-zone schema. -/
inductive Impact where
  | Optimal : Impact
  | Acceptable : Impact
  | Challenging : Impact

/-- Encoding of an `Impact` as its enum string. -/
def encodeImpact : Impact → Json
  | Impact.Optimal => Json.str "Optimal"
  | Impact.Acceptable => Json.str "Acceptable"
  | Impact.Challenging => Json.str "Challenging"

/-- Element type of `impactAssessment`. -/
structure ImpactAssessment where
  location : String
  localTime : String
  impact : Impact

/-- Element type of `TimeZoneRecommendation.optimalMeetingTimes`. -/
structure MeetingTime where
  startTime : String
  endTime : String
  impactAssessment : List ImpactAssessment
  reasoning : String

/-- `TimeZoneRecommendation` (`z.infer<typeof timeZoneRecommendationSchema>`). -/
structure TimeZoneRecommendation where
  optimalMeetingTimes : List MeetingTime
  jetlagManagementTips : Option (List String)

/-- Canonical encoding of an `ImpactAssessment`. -/
def encodeImpactAssessment (i : ImpactAssessment) : Json :=
  Json.obj [("location", Json.str i.location),
    ("localTime", Json.str i.localTime),
    ("impact", encodeImpact i.impact)]

/-- Canonical encoding of a `MeetingTime`. -/
def encodeMeetingTime (m : MeetingTime) : Json :=
  Json.obj [("startTime", Json.str m.startTime),
    ("endTime", Json.str m.endTime),
    ("impactAssessment", Json.arr (m.impactAssessment.map encodeImpactAssessment)),
    ("reasoning", Json.str m.reasoning)]

/-- Canonical encoding of a `TimeZoneRecommendation`. -/
def encodeTimeZone (t : TimeZoneRecommendation) : Json :=
  Json.obj ([("optimalMeetingTimes",
      Json.arr (t.optimalMeetingTimes.map encodeMeetingTime))]
    ++ optEntry "jetlagManagementTips"
        (t.jetlagManagementTips.map (fun l => Json.arr (l.map Json.str))))

/-- The `comparisonToAverage.status` enumeration. -/
inductive BudgetStatus where
  | aboveAverage : BudgetStatus
  | belowAverage : BudgetStatus
  | average : BudgetStatus

/-- Encoding of a `BudgetStatus` as its enum string. -/
def encodeBudgetStatus : BudgetStatus → Json
  | BudgetStatus.aboveAverage => Json.str "Above average"
  | BudgetStatus.belowAverage => Json.str "Below average"
  | BudgetStatus.average => Json.str "Average"

/-- The `implementationDifficulty` enumeration. -/
inductive Difficulty where
  | easy : Difficulty
  | medium : Difficulty
  | hard : Difficulty

/-- Encoding of a `Difficulty` as its enum string. -/
def encodeDifficulty : Difficulty → Json
  | Difficulty.easy => Json.str "Easy"
  | Difficulty.medium => Json.str "Medium"
  | Difficulty.hard => Json.str "Hard"

/-- Element type of `BudgetAnalysis.categorizedExpenses`. -/
structure CategorizedExpense where
  category : String
  amount : ℚ
  percentage : ℚ
  workRelated : Bool

/-- The `comparisonToAverage` sub-object. -/
structure ComparisonToAverage where
  status : BudgetStatus
  details : String

/-- Element type of `BudgetAnalysis.recommendations`. -/
structure BudgetRecommendation where
  description : String
  potentialSavings : Option ℚ
  implementationDifficulty : Difficulty

/-- `BudgetAnalysis` (`z.infer<typeof budgetAnalysisSchema>`). -/
structure BudgetAnalysis where
  categorizedExpenses : List CategorizedExpense
  comparisonToAverage : ComparisonToAverage
  recommendations : List BudgetRecommendation

/-- Canonical encoding of a `CategorizedExpense`. -/
def encodeExpense (e : CategorizedExpense) : Json :=
  Json.obj [("category", Json.str e.category),
    ("amount", Json.num e.amount),
    ("percentage", Json.num e.percentage),
    ("workRelated", Json.bool e.workRelated)]

/-- Canonical encoding of a `ComparisonToAverage`. -/
def encodeComparison (c : ComparisonToAverage) : Json :=
  Json.obj [("status", encodeBudgetStatus c.status),
    ("details", Json.str c.details)]

/-- Canonical encoding of a `BudgetRecommendation`. -/
def encodeBudgetRecommendation (r : BudgetRecommendation) : Json :=
  Json.obj ([("description", Json.str r.description)]
    ++ optEntry "potentialSavings" (r.potentialSavings.map Json.num)
    ++ [("implementationDifficulty", encodeDifficulty r.implementationDifficulty)])

/-- Canonical encoding of a `BudgetAnalysis`. -/
def encodeBudget (b : BudgetAnalysis) : Json :=
  Json.obj [("categorizedExpenses", Json.arr (b.categorizedExpenses.map encodeExpense)),
    ("comparisonToAverage", encodeComparison b.comparisonToAverage),
    ("recommendations", Json.arr (b.recommendations.map encodeBudgetRecommendation))]

/-- Element type of `CommunityRecommendation.recommendations`. -/
structure CommunityEntry where
  name : String
  type : String
  relevanceScore : ℚ
  score_ge : 1 ≤ relevanceScore
  score_le : relevanceScore ≤ 10
  description : String
  contactMethod : Option String
  matchingInterests : List String
  networkingApproach : String

/-- `CommunityRecommendation` (`z.infer<typeof communityRecommendationSchema>`). -/
structure CommunityRecommendation where
  recommendations : List CommunityEntry

/-- Canonical encoding of a `CommunityEntry`. -/
def encodeCommunityEntry (e : CommunityEntry) : Json :=
  Json.obj ([("name", Json.str e.name), ("type", Json.str e.type),
    ("relevanceScore", Json.num e.relevanceScore),
    ("description", Json.str e.description)]
    ++ optEntry "contactMethod" (e.contactMethod.map Json.str)
    ++ [("matchingInterests", Json.arr (e.matchingInterests.map Json.str)),
        ("networkingApproach", Json.str e.networkingApproach)])

/-- Canonical encoding of a `CommunityRecommendation`. -/
def encodeCommunity (c : CommunityRecommendation) : Json :=
  Json.obj [("recommendations", Json.arr (c.recommendations.map encodeCommunityEntry))]

/-- The optional `visaRequirements` sub-object of `LegalResource`. -/
structure VisaRequirements where
  requiredVisa : String
  stayDuration : String
  applicationProcess : String
  requiredDocuments : List String
  processingTime : String
  fees : String

/-- The optional `taxImplications` sub-object of `LegalResource`. -/
structure TaxImplications where
  taxStatus : String
  reportingRequirements : String
  treatiesSummary : Option String
  keyConsiderations : List String

/-- The optional `workLegality` sub-object of `LegalResource`. -/
structure WorkLegality where
  legalStatus : String
  restrictions : Option (List String)
  permissions : Option (List String)

/-- Element type of `LegalResource.authoritativeSources`. -/
structure AuthoritativeSource where
  name : String
  url : Option String
  description : String

/-- `LegalResource` (`z.infer<typeof legalResourceSchema>`). -/
structure LegalResource where
  visaRequirements : Option VisaRequirements
  taxImplications : Option TaxImplications
  workLegality : Option WorkLegality
  authoritativeSources : List AuthoritativeSource
  disclaimer : String

/-- Canonical encoding of a `VisaRequirements`. -/
def encodeVisa (v : VisaRequirements) : Json :=
  Json.obj [("requiredVisa", Json.str v.requiredVisa),
    ("stayDuration", Json.str v.stayDuration),
    ("applicationProcess", Json.str v.applicationProcess),
    ("requiredDocuments", Json.arr (v.requiredDocuments.map Json.str)),
    ("processingTime", Json.str v.processingTime),
    ("fees", Json.str v.fees)]

/-- Canonical encoding of a `TaxImplications`. -/
def encodeTax (t : TaxImplications) : Json :=
  Json.obj ([("taxStatus", Json.str t.taxStatus),
    ("reportingRequirements", Json.str t.reportingRequirements)]
    ++ optEntry "treatiesSummary" (t.treatiesSummary.map Json.str)
    ++ [("keyConsiderations", Json.arr (t.keyConsiderations.map Json.str))])

/-- Canonical encoding of a `WorkLegality`. -/
def encodeWork (w : WorkLegality) : Json :=
  Json.obj ([("legalStatus", Json.str w.legalStatus)]
    ++ optEntry "restrictions" (w.restrictions.map (fun l => Json.arr (l.map Json.str)))
    ++ optEntry "permissions" (w.permissions.map (fun l => Json.arr (l.map Json.str))))

/-- Canonical encoding of an `AuthoritativeSource`. -/
def encodeSource (s : AuthoritativeSource) : Json :=
  Json.obj ([("name", Json.str s.name)]
    ++ optEntry "url" (s.url.map Json.str)
    ++ [("description", Json.str s.description)])

/-- Canonical encoding of a `LegalResource`. -/
def encodeLegal (l : LegalResource) : Json :=
  Json.obj (optEntry "visaRequirements" (l.visaRequirements.map encodeVisa)
    ++ optEntry "taxImplications" (l.taxImplications.map encodeTax)
    ++ optEntry "workLegality" (l.workLegality.map encodeWork)
    ++ [("authoritativeSources", Json.arr (l.authoritativeSources.map encodeSource)),
        ("disclaimer", Json.str l.disclaimer)])

/-- `AssistantResponse` (`z.infer<typeof assistantResponseSchema>`). -/
structure AssistantResponse where
  response : String
  relatedModules : Option (List String)
  suggestedActions : Option (List String)

/-- Canonical encoding of an `AssistantResponse`. -/
def encodeAssistant (a : AssistantResponse) : Json :=
  Json.obj ([("response", Json.str a.response)]
    ++ optEntry "relatedModules" (a.relatedModules.map (fun l => Json.arr (l.map Json.str)))
    ++ optEntry "suggestedActions" (a.suggestedActions.map (fun l => Json.arr (l.map Json.str))))

/-! ## Concrete payload families used in the analysis -/

/-- The gateway's fallback wrapper for non-JSON model output (line 203). -/
def rawResponseObj (t : String) : Json :=
  Json.obj [("rawResponse", Json.str t)]

/-- An ok response body whose single candidate carries the text `t`. -/
def successBody (t : String) : Json :=
  Json.obj [("candidates", Json.arr [Json.obj [("content", Json.obj
    [("parts", Json.arr [Json.obj [("text", Json.str t)]])])]])]

/-- A co-working venue payload that is valid except possibly for its rank. -/
def venueWithRank (q : ℚ) : Json :=
  Json.obj [("name", Json.str "Hub"), ("location", Json.str "Lisbon"),
    ("price", Json.str "10"), ("amenities", Json.arr []),
    ("matchingCriteria", Json.arr []), ("potentialDrawbacks", Json.arr []),
    ("rank", Json.num q)]

/-- A co-working recommendation payload whose one venue has rank `q`. -/
def coworkingWithRank (q : ℚ) : Json :=
  Json.obj [("recommendations", Json.arr [venueWithRank q]),
    ("recommendationSummary", Json.str "ok")]

/-- A community entry payload that is valid except possibly for its score. -/
def communityEntryWithScore (q : ℚ) : Json :=
  Json.obj [("name", Json.str "Meetup"), ("type", Json.str "Group"),
    ("relevanceScore", Json.num q), ("description", Json.str "d"),
    ("matchingInterests", Json.arr []), ("networkingApproach", Json.str "n")]

/-- A community recommendation payload whose one entry has score `q`. -/
def communityWithScore (q : ℚ) : Json :=
  Json.obj [("recommendations", Json.arr [communityEntryWithScore q])]

/-- Minimal valid field list for `conflictAnalysisSchema`. -/
def conflictMinFields : List (String × Json) :=
  [("hasConflict", Json.bool true)]

/-- Minimal valid field list for `coworkingRecommendationSchema`. -/
def coworkingMinFields : List (String × Json) :=
  [("recommendations", Json.arr []), ("recommendationSummary", Json.str "")]

/-- Minimal valid field list for `timeZoneRecommendationSchema`. -/
def timeZoneMinFields : List (String × Json) :=
  [("optimalMeetingTimes", Json.arr [])]

/-- Minimal valid field list for `budgetAnalysisSchema`. -/
def budgetMinFields : List (String × Json) :=
  [("categorizedExpenses", Json.arr []),
   ("comparisonToAverage", Json.obj [("status", Json.str "Average"), ("details", Json.str "")]),
   ("recommendations", Json.arr [])]

/-- Minimal valid field list for `communityRecommendationSchema`. -/
def communityMinFields : List (String × Json) :=
  [("recommendations", Json.arr [])]

/-- Minimal valid field list for `legalResourceSchema`. -/
def legalMinFields : List (String × Json) :=
  [("authoritativeSources", Json.arr []), ("disclaimer", Json.str "")]

/-- Minimal valid field list for `assistantResponseSchema`. -/
def assistantMinFields : List (String × Json) :=
  [("response", Json.str "")]

/-- The same fields followed by one undeclared field `extraneous`. -/
def withExtra (fs : List (String × Json)) (v : Json) : Json :=
  Json.obj (fs ++ [("extraneous", v)])

/-! ## Helper lemmas -/

/-- Bind on an ok `Except` just applies the continuation. -/
@[simp] theorem exceptOkBind {α β ε : Type} (a : α) (f : α → Except ε β) :
    (Except.ok a : Except ε α) >>= f = f a := rfl

/-- A successful bind factors through a successful first step. -/
theorem bind_eq_ok {α β ε : Type} {x : Except ε α} {f : α → Except ε β} {v : β}
    (h : x >>= f = Except.ok v) : ∃ a, x = Except.ok a ∧ f a = Except.ok v := by
  cases x with
  | ok a => exact ⟨a, rfl, h⟩
  | error e => exact absurd h (by simp [Bind.bind, Except.bind])

/-- A successful required-field check means the key is present. -/
theorem reqField_isSome {fs : List (String × Json)} {k : String}
    {v : Json → Except String Json} {a : Json}
    (h : reqField fs k v = Except.ok a) : (lookupField k fs).isSome = true := by
  unfold reqField at h
  cases hl : lookupField k fs with
  | none => rw [hl] at h; exact absurd h (by simp)
  | some j => rfl

/-- Elements that validate to themselves make `vList` the identity. -/
theorem vList_ok_self {f : Json → Except String Json} :
    ∀ {xs : List Json}, (∀ x ∈ xs, f x = Except.ok x) → vList f xs = Except.ok xs := by
  intro xs
  induction xs with
  | nil => intro _; rfl
  | cons x xs ih =>
      intro h
      rw [vList, h x (List.mem_cons_self x xs),
        ih (fun y hy => h y (List.mem_cons_of_mem x hy))]
      rfl

/-- A successful `vList` run validated every element successfully. -/
theorem vList_ok_forall {f : Json → Except String Json} :
    ∀ {xs ys : List Json}, vList f xs = Except.ok ys →
      ∀ x ∈ xs, ∃ y, f x = Except.ok y := by
  intro xs
  induction xs with
  | nil => intro ys _ x hx; exact absurd hx (List.not_mem_nil x)
  | cons a as ih =>
      intro ys h x hx
      rw [vList] at h
      obtain ⟨y0, hy0, h2⟩ := bind_eq_ok h
      obtain ⟨ys0, hys0, _⟩ := bind_eq_ok h2
      rcases List.mem_cons.mp hx with rfl | hmem
      · exact ⟨y0, hy0⟩
      · exact ih hys0 x hmem

/-- Encoded elements pass an element validator that fixes encodings. -/
theorem vArray_map_ok {A : Type} (enc : A → Json) (f : Json → Except String Json)
    (h : ∀ a : A, f (enc a) = Except.ok (enc a)) (l : List A) :
    vArray f (Json.arr (l.map enc)) = Except.ok (Json.arr (l.map enc)) := by
  rw [vArray, vList_ok_self]
  · rfl
  · intro x hx
    rcases List.mem_map.mp hx with ⟨a, _, rfl⟩
    exact h a

/-- Strings of an encoded string list pass `z.array(z.string())`. -/
theorem vArray_map_str (l : List String) :
    vArray vString (Json.arr (l.map Json.str)) = Except.ok (Json.arr (l.map Json.str)) :=
  vArray_map_ok Json.str vString (fun _ => rfl) l

/-! ### Round-trip lemmas: canonical encodings validate to themselves -/

/-- `suggestedSolutionSchema` fixes canonical solutions. -/
theorem rt_solution (s : SuggestedSolution) :
    suggestedSolutionSchema (encodeSolution s) = Except.ok (encodeSolution s) := by
  simp [suggestedSolutionSchema, encodeSolution, reqField, lookupField, vString,
    vArray_map_str]

/-- `conflictAnalysisSchema` fixes canonical conflict analyses. -/
theorem rt_conflict (c : ConflictAnalysis) :
    conflictAnalysisSchema (encodeConflict c) = Except.ok (encodeConflict c) := by
  rcases c with ⟨h, det, sols⟩
  cases det <;> cases sols <;>
    simp [conflictAnalysisSchema, encodeConflict, reqField, optField, optEntry,
      lookupField, vString, vBool,
      vArray_map_ok encodeSolution suggestedSolutionSchema rt_solution]

/-- `coworkingVenueSchema` fixes canonical venues. -/
theorem rt_venue (v : CoworkingVenue) :
    coworkingVenueSchema (encodeVenue v) = Except.ok (encodeVenue v) := by
  rcases v with ⟨n, loc, rat, pr, isp, am, mc, pd, rk, hge, hle⟩
  cases rat <;> cases isp <;>
    simp [coworkingVenueSchema, encodeVenue, reqField, optField, optEntry,
      lookupField, vString, vNumRange, vArray_map_str, hge, hle]

/-- `coworkingRecommendationSchema` fixes canonical recommendations. -/
theorem rt_coworking (c : CoworkingRecommendation) :
    coworkingRecommendationSchema (encodeCoworking c) = Except.ok (encodeCoworking c) := by
  simp [coworkingRecommendationSchema, encodeCoworking, reqField, lookupField,
    vString, vArray_map_ok encodeVenue coworkingVenueSchema rt_venue]

/-- `impactAssessmentSchema` fixes canonical impact assessments. -/
theorem rt_impactAssessment (i : ImpactAssessment) :
    impactAssessmentSchema (encodeImpactAssessment i) = Except.ok (encodeImpactAssessment i) := by
  rcases i with ⟨loc, lt, im⟩
  cases im <;>
    simp [impactAssessmentSchema, encodeImpactAssessment, encodeImpact, reqField,
      lookupField, vString, vEnum]

/-- `meetingTimeSchema` fixes canonical meeting times. -/
theorem rt_meetingTime (m : MeetingTime) :
    meetingTimeSchema (encodeMeetingTime m) = Except.ok (encodeMeetingTime m) := by
  simp [meetingTimeSchema, encodeMeetingTime, reqField, lookupField, vString,
    vArray_map_ok encodeImpactAssessment impactAssessmentSchema rt_impactAssessment]

/-- `timeZoneRecommendationSchema` fixes canonical time-zone recommendations. -/
theorem rt_timeZone (t : TimeZoneRecommendation) :
    timeZoneRecommendationSchema (encodeTimeZone t) = Except.ok (encodeTimeZone t) := by
  rcases t with ⟨omt, tips⟩
  cases tips <;>
    simp [timeZoneRecommendationSchema, encodeTimeZone, reqField, optField,
      optEntry, lookupField, vString, vArray_map_str,
      vArray_map_ok encodeMeetingTime meetingTimeSchema rt_meetingTime]

/-- `categorizedExpenseSchema` fixes canonical expenses. -/
theorem rt_expense (e : CategorizedExpense) :
    categorizedExpenseSchema (encodeExpense e) = Except.ok (encodeExpense e) := by
  simp [categorizedExpenseSchema, encodeExpense, reqField, lookupField, vString,
    vNum, vBool]

/-- `comparisonToAverageSchema` fixes canonical comparisons. -/
theorem rt_comparison (c : ComparisonToAverage) :
    comparisonToAverageSchema (encodeComparison c) = Except.ok (encodeComparison c) := by
  rcases c with ⟨st, d⟩
  cases st <;>
    simp [comparisonToAverageSchema, encodeComparison, encodeBudgetStatus,
      reqField, lookupField, vString, vEnum]

/-- `budgetRecommendationSchema` fixes canonical budget recommendations. -/
theorem rt_budgetRec (r : BudgetRecommendation) :
    budgetRecommendationSchema (encodeBudgetRecommendation r)
      = Except.ok (encodeBudgetRecommendation r) := by
  rcases r with ⟨d, ps, id⟩
  cases ps <;> cases id <;>
    simp [budgetRecommendationSchema, encodeBudgetRecommendation, encodeDifficulty,
      reqField, optField, optEntry, lookupField, vString, vNum, vEnum]

/-- `budgetAnalysisSchema` fixes canonical budget analyses. -/
theorem rt_budget (b : BudgetAnalysis) :
    budgetAnalysisSchema (encodeBudget b) = Except.ok (encodeBudget b) := by
  simp [budgetAnalysisSchema, encodeBudget, reqField, lookupField,
    vArray_map_ok encodeExpense categorizedExpenseSchema rt_expense,
    rt_comparison,
    vArray_map_ok encodeBudgetRecommendation budgetRecommendationSchema rt_budgetRec]

/-- `communityEntrySchema` fixes canonical community entries. -/
theorem rt_communityEntry (e : CommunityEntry) :
    communityEntrySchema (encodeCommunityEntry e) = Except.ok (encodeCommunityEntry e) := by
  rcases e with ⟨n, t, rs, hge, hle, d, cm, mi, na⟩
  cases cm <;>
    simp [communityEntrySchema, encodeCommunityEntry, reqField, optField,
      optEntry, lookupField, vString, vNumRange, vArray_map_str, hge, hle]

/-- `communityRecommendationSchema` fixes canonical community recommendations. -/
theorem rt_community (c : CommunityRecommendation) :
    communityRecommendationSchema (encodeCommunity c) = Except.ok (encodeCommunity c) := by
  simp [communityRecommendationSchema, encodeCommunity, reqField, lookupField,
    vArray_map_ok encodeCommunityEntry communityEntrySchema rt_communityEntry]

/-- `visaRequirementsSchema` fixes canonical visa requirements. -/
theorem rt_visa (v : VisaRequirements) :
    visaRequirementsSchema (encodeVisa v) = Except.ok (encodeVisa v) := by
  simp [visaRequirementsSchema, encodeVisa, reqField, lookupField, vString,
    vArray_map_str]

/-- `taxImplicationsSchema` fixes canonical tax implications. -/
theorem rt_tax (t : TaxImplications) :
    taxImplicationsSchema (encodeTax t) = Except.ok (encodeTax t) := by
  rcases t with ⟨ts, rr, tr, kc⟩
  cases tr <;>
    simp [taxImplicationsSchema, encodeTax, reqField, optField, optEntry,
      lookupField, vString, vArray_map_str]

/-- `workLegalitySchema` fixes canonical work-legality objects. -/
theorem rt_work (w : WorkLegality) :
    workLegalitySchema (encodeWork w) = Except.ok (encodeWork w) := by
  rcases w with ⟨ls, rs, ps⟩
  cases rs <;> cases ps <;>
    simp [workLegalitySchema, encodeWork, reqField, optField, optEntry,
      lookupField, vString, vArray_map_str]

/-- `authoritativeSourceSchema` fixes canonical sources. -/
theorem rt_source (s : AuthoritativeSource) :
    authoritativeSourceSchema (encodeSource s) = Except.ok (encodeSource s) := by
  rcases s with ⟨n, u, d⟩
  cases u <;>
    simp [authoritativeSourceSchema, encodeSource, reqField, optField, optEntry,
      lookupField, vString]

/-- `legalResourceSchema` fixes canonical legal resources. -/
theorem rt_legal (l : LegalResource) :
    legalResourceSchema (encodeLegal l) = Except.ok (encodeLegal l) := by
  rcases l with ⟨vr, ti, wl, src, dis⟩
  cases vr <;> cases ti <;> cases wl <;>
    simp [legalResourceSchema, encodeLegal, reqField, optField, optEntry,
      lookupField, vString, rt_visa, rt_tax, rt_work,
      vArray_map_ok encodeSource authoritativeSourceSchema rt_source]

/-- `assistantResponseSchema` fixes canonical assistant responses. -/
theorem rt_assistant (a : AssistantResponse) :
    assistantResponseSchema (encodeAssistant a) = Except.ok (encodeAssistant a) := by
  rcases a with ⟨r, rm, sa⟩
  cases rm <;> cases sa <;>
    simp [assistantResponseSchema, encodeAssistant, reqField, optField, optEntry,
      lookupField, vString, vArray_map_str]

/-! ### Gateway lemmas -/

/-- When the ok response body has an extracted text payload `t`, the gateway's
post-processing is exactly `JSON.parse`-or-fallback on `t`. -/
theorem processData_extracted (parse : String → Option Json) {data : Json} {t : String}
    (h : extractedText data = some t) :
    processData parse data = (match parse t with
      | some j => Except.ok j
      | none => Except.ok (rawResponseObj t)) := by
  cases data with
  | obj fs =>
      simp only [extractedText] at h
      cases hc : lookupField "candidates" fs with
      | none => rw [hc] at h; simp at h
      | some c =>
          rw [hc] at h
          cases c with
          | arr xs =>
              cases xs with
              | nil => simp at h
              | cons c0 rest =>
                  simp only [] at h
                  simp only [processData]
                  rw [hc]
                  simp [truthy, h, rawResponseObj]
          | null => simp at h
          | bool b => simp at h
          | num q => simp at h
          | str s => simp at h
          | obj gs => simp at h
  | null => simp [extractedText] at h
  | bool b => simp [extractedText] at h
  | num q => simp [extractedText] at h
  | str s => simp [extractedText] at h
  | arr xs => simp [extractedText] at h

/-- The gateway's post-processing never produces a `ZodError`. -/
theorem processData_ne_zod (parse : String → Option Json) (data : Json) (m : String) :
    processData parse data ≠ Except.error (JsError.zodError m) := by
  intro h
  cases data with
  | obj fs =>
      simp only [processData] at h
      cases hc : lookupField "candidates" fs with
      | none => rw [hc] at h; simp at h
      | some c =>
          rw [hc] at h
          simp only [] at h
          by_cases ht : truthy c = true
          · rw [if_pos ht] at h
            cases c with
            | arr xs =>
                cases xs with
                | nil => simp at h
                | cons c0 rest =>
                    simp only [] at h
                    cases hx : textOf c0 with
                    | none => rw [hx] at h; simp at h
                    | some t =>
                        rw [hx] at h
                        simp only [] at h
                        cases hp : parse t with
                        | none => rw [hp] at h; simp at h
                        | some j => rw [hp] at h; simp at h
            | null => simp at h
            | bool b => simp at h
            | num q => simp at h
            | str s => simp at h
            | obj gs => simp at h
          · rw [if_neg ht] at h; simp at h
  | null => simp [processData] at h
  | bool b => simp [processData] at h
  | num q => simp [processData] at h
  | str s => simp [processData] at h
  | arr xs => simp [processData] at h

/-- `callGeminiAPI` never throws the `ZodError` class: its configuration and
transport/upstream failures are plain `Error`s. -/
theorem callGeminiAPI_ne_zod (parse : String → Option Json) (env : Option String)
    (fetch : String → Json → FetchResult) (prompt : String)
    (modelParams : List (String × Json)) (m : String) :
    (callGeminiAPI parse env fetch prompt modelParams).1
      ≠ Except.error (JsError.zodError m) := by
  by_cases h : env.getD "" = ""
  · simp [callGeminiAPI, h]
  · simp only [callGeminiAPI, h, if_false]
    cases hf : fetch (geminiUrl (env.getD "")) (geminiPayload prompt modelParams) with
    | networkError msg => simp
    | httpError st body => simp
    | success data => simpa using processData_ne_zod parse data m

/-! ### Success implies required keys present -/

/-- A validated conflict analysis had its required key. -/
theorem conflict_ok_req {fs : List (String × Json)} {v : Json}
    (h : conflictAnalysisSchema (Json.obj fs) = Except.ok v) :
    (lookupField "hasConflict" fs).isSome = true := by
  simp only [conflictAnalysisSchema] at h
  obtain ⟨a, ha, _⟩ := bind_eq_ok h
  exact reqField_isSome ha

/-- A validated co-working recommendation had its required keys. -/
theorem coworking_ok_req {fs : List (String × Json)} {v : Json}
    (h : coworkingRecommendationSchema (Json.obj fs) = Except.ok v) :
    (lookupField "recommendations" fs).isSome = true
      ∧ (lookupField "recommendationSummary" fs).isSome = true := by
  simp only [coworkingRecommendationSchema] at h
  obtain ⟨a, ha, h⟩ := bind_eq_ok h
  obtain ⟨b, hb, _⟩ := bind_eq_ok h
  exact ⟨reqField_isSome ha, reqField_isSome hb⟩

/-- A validated time-zone recommendation had its required key. -/
theorem timeZone_ok_req {fs : List (String × Json)} {v : Json}
    (h : timeZoneRecommendationSchema (Json.obj fs) = Except.ok v) :
    (lookupField "optimalMeetingTimes" fs).isSome = true := by
  simp only [timeZoneRecommendationSchema] at h
  obtain ⟨a, ha, _⟩ := bind_eq_ok h
  exact reqField_isSome ha

/-- A validated budget analysis had its required keys. -/
theorem budget_ok_req {fs : List (String × Json)} {v : Json}
    (h : budgetAnalysisSchema (Json.obj fs) = Except.ok v) :
    (lookupField "categorizedExpenses" fs).isSome = true
      ∧ (lookupField "comparisonToAverage" fs).isSome = true
      ∧ (lookupField "recommendations" fs).isSome = true := by
  simp only [budgetAnalysisSchema] at h
  obtain ⟨a, ha, h⟩ := bind_eq_ok h
  obtain ⟨b, hb, h⟩ := bind_eq_ok h
  obtain ⟨c, hc, _⟩ := bind_eq_ok h
  exact ⟨reqField_isSome ha, reqField_isSome hb, reqField_isSome hc⟩

/-- A validated community recommendation had its required key. -/
theorem community_ok_req {fs : List (String × Json)} {v : Json}
    (h : communityRecommendationSchema (Json.obj fs) = Except.ok v) :
    (lookupField "recommendations" fs).isSome = true := by
  simp only [communityRecommendationSchema] at h
  obtain ⟨a, ha, _⟩ := bind_eq_ok h
  exact reqField_isSome ha

/-- A validated legal resource had its required keys. -/
theorem legal_ok_req {fs : List (String × Json)} {v : Json}
    (h : legalResourceSchema (Json.obj fs) = Except.ok v) :
    (lookupField "authoritativeSources" fs).isSome = true
      ∧ (lookupField "disclaimer" fs).isSome = true := by
  simp only [legalResourceSchema] at h
  obtain ⟨_, _, h⟩ := bind_eq_ok h
  obtain ⟨_, _, h⟩ := bind_eq_ok h
  obtain ⟨_, _, h⟩ := bind_eq_ok h
  obtain ⟨a, ha, h⟩ := bind_eq_ok h
  obtain ⟨b, hb, _⟩ := bind_eq_ok h
  exact ⟨reqField_isSome ha, reqField_isSome hb⟩

/-- A validated assistant response had its required key. -/
theorem assistant_ok_req {fs : List (String × Json)} {v : Json}
    (h : assistantResponseSchema (Json.obj fs) = Except.ok v) :
    (lookupField "response" fs).isSome = true := by
  simp only [assistantResponseSchema] at h
  obtain ⟨a, ha, _⟩ := bind_eq_ok h
  exact reqField_isSome ha

/-! ### Successful validation respects the numeric bounds -/

/-- Any venue inside a validated co-working payload has its rank in `[1,5]`. -/
theorem coworking_ok_rank {fs : List (String × Json)} {v : Json}
    {xs : List Json} {gs : List (String × Json)} {q : ℚ}
    (h : coworkingRecommendationSchema (Json.obj fs) = Except.ok v)
    (hrec : lookupField "recommendations" fs = some (Json.arr xs))
    (hmem : Json.obj gs ∈ xs)
    (hrank : lookupField "rank" gs = some (Json.num q)) :
    1 ≤ q ∧ q ≤ 5 := by
  simp only [coworkingRecommendationSchema] at h
  obtain ⟨a, ha, _⟩ := bind_eq_ok h
  unfold reqField at ha
  rw [hrec] at ha
  simp only [vArray] at ha
  obtain ⟨ys, hys, _⟩ := bind_eq_ok ha
  obtain ⟨y, hy⟩ := vList_ok_forall hys (Json.obj gs) hmem
  simp only [coworkingVenueSchema] at hy
  obtain ⟨_, _, hy⟩ := bind_eq_ok hy
  obtain ⟨_, _, hy⟩ := bind_eq_ok hy
  obtain ⟨_, _, hy⟩ := bind_eq_ok hy
  obtain ⟨_, _, hy⟩ := bind_eq_ok hy
  obtain ⟨_, _, hy⟩ := bind_eq_ok hy
  obtain ⟨_, _, hy⟩ := bind_eq_ok hy
  obtain ⟨_, _, hy⟩ := bind_eq_ok hy
  obtain ⟨_, _, hy⟩ := bind_eq_ok hy
  obtain ⟨rk, hrk, _⟩ := bind_eq_ok hy
  unfold reqField at hrk
  rw [hrank] at hrk
  simp only [vNumRange] at hrk
  by_cases hcond : 1 ≤ q ∧ q ≤ 5
  · exact hcond
  · rw [if_neg hcond] at hrk
    exact absurd hrk (by simp)

/-- Any entry inside a validated community payload has its score in `[1,10]`. -/
theorem community_ok_score {fs : List (String × Json)} {v : Json}
    {xs : List Json} {gs : List (String × Json)} {q : ℚ}
    (h : communityRecommendationSchema (Json.obj fs) = Except.ok v)
    (hrec : lookupField "recommendations" fs = some (Json.arr xs))
    (hmem : Json.obj gs ∈ xs)
    (hscore : lookupField "relevanceScore" gs = some (Json.num q)) :
    1 ≤ q ∧ q ≤ 10 := by
  simp only [communityRecommendationSchema] at h
  obtain ⟨a, ha, _⟩ := bind_eq_ok h
  unfold reqField at ha
  rw [hrec] at ha
  simp only [vArray] at ha
  obtain ⟨ys, hys, _⟩ := bind_eq_ok ha
  obtain ⟨y, hy⟩ := vList_ok_forall hys (Json.obj gs) hmem
  simp only [communityEntrySchema] at hy
  obtain ⟨_, _, hy⟩ := bind_eq_ok hy
  obtain ⟨_, _, hy⟩ := bind_eq_ok hy
  obtain ⟨rs, hrs, _⟩ := bind_eq_ok hy
  unfold reqField at hrs
  rw [hscore] at hrs
  simp only [vNumRange] at hrs
  by_cases hcond : 1 ≤ q ∧ q ≤ 10
  · exact hcond
  · rw [if_neg hcond] at hrs
    exact absurd hrs (by simp)

/-- Bind on an error `Except` propagates the error. -/
@[simp] theorem exceptErrorBind {α β ε : Type} (e : ε) (f : α → Except ε β) :
    (Except.error e : Except ε α) >>= f = Except.error e := rfl

/-! ## The claims -/

/-- C1: for every prompt, if the Gateway (`callGeminiAPI`) receives a
successful HTTP response whose extracted text payload is not valid JSON
(`parse t = none`), it returns the object `{rawResponse: <text>}` wrapping
the raw text rather than throwing an error. -/
theorem claim1_nonjson_payload_returns_rawResponse
    (parse : String → Option Json) (env : Option String)
    (fetch : String → Json → FetchResult) (prompt : String)
    (modelParams : List (String × Json)) (data : Json) (t : String)
    (hkey : env.getD "" ≠ "")
    (hfetch : fetch (geminiUrl (env.getD "")) (geminiPayload prompt modelParams)
      = FetchResult.success data)
    (htext : extractedText data = some t)
    (hparse : parse t = none) :
    callGeminiAPI parse env fetch prompt modelParams
      = (Except.ok (rawResponseObj t), 1) := by
  simp only [callGeminiAPI]
  rw [if_neg hkey, hfetch]
  simp only []
  rw [processData_extracted parse htext, hparse]

/-- Witness for C1 at a concrete stub: a success body carrying the non-JSON
text "plain text" comes back as the `rawResponse` wrapper. -/
theorem claim1_witness :
    callGeminiAPI (fun _ => none) (some "key")
      (fun _ _ => FetchResult.success (successBody "plain text")) "p" []
      = (Except.ok (rawResponseObj "plain text"), 1) :=
  claim1_nonjson_payload_returns_rawResponse (fun _ => none) (some "key")
    (fun _ _ => FetchResult.success (successBody "plain text")) "p" []
    (successBody "plain text") "plain text" (by decide) rfl rfl rfl

/-- C3: with the credential absent or empty, `callGeminiAPI` throws the
configuration error and the network call count is zero. -/
theorem claim3_missing_credential_config_error_zero_calls
    (parse : String → Option Json) (env : Option String)
    (fetch : String → Json → FetchResult) (prompt : String)
    (modelParams : List (String × Json))
    (h : env = none ∨ env = some "") :
    callGeminiAPI parse env fetch prompt modelParams
      = (Except.error (JsError.error
          "Gemini API key not found. Please set the GEMINI_API_KEY environment variable."), 0) := by
  rcases h with rfl | rfl <;> rfl

/-- Witness for C3 with the credential missing entirely. -/
theorem claim3_witness :
    callGeminiAPI (fun _ => none) none
      (fun _ _ => FetchResult.networkError "unreachable") "p" []
      = (Except.error (JsError.error
          "Gemini API key not found. Please set the GEMINI_API_KEY environment variable."), 0) :=
  claim3_missing_credential_config_error_zero_calls (fun _ => none) none
    (fun _ _ => FetchResult.networkError "unreachable") "p" [] (Or.inl rfl)

/-- C4: a successful HTTP response with zero candidates (the `candidates`
key missing or an empty array) makes the Gateway throw the upstream
"No response generated" `Error`, which is not of the `ZodError` class. -/
theorem claim4_zero_candidates_upstream_error
    (parse : String → Option Json) (env : Option String)
    (fetch : String → Json → FetchResult) (prompt : String)
    (modelParams : List (String × Json)) (fs : List (String × Json))
    (hkey : env.getD "" ≠ "")
    (hfetch : fetch (geminiUrl (env.getD "")) (geminiPayload prompt modelParams)
      = FetchResult.success (Json.obj fs))
    (hcand : lookupField "candidates" fs = none
      ∨ lookupField "candidates" fs = some (Json.arr [])) :
    callGeminiAPI parse env fetch prompt modelParams
      = (Except.error (JsError.error "No response generated from Gemini API"), 1)
    ∧ ∀ m, JsError.error "No response generated from Gemini API" ≠ JsError.zodError m := by
  constructor
  · simp only [callGeminiAPI]
    rw [if_neg hkey, hfetch]
    rcases hcand with hc | hc
    · simp [processData, hc]
    · simp [processData, hc, truthy]
  · intro m h
    exact absurd h (by simp)

/-- Witness for C4 at a concrete stub returning an empty candidate list. -/
theorem claim4_witness :
    callGeminiAPI (fun _ => none) (some "key")
      (fun _ _ => FetchResult.success (Json.obj [("candidates", Json.arr [])])) "p" []
      = (Except.error (JsError.error "No response generated from Gemini API"), 1) :=
  (claim4_zero_candidates_upstream_error (fun _ => none) (some "key")
    (fun _ _ => FetchResult.success (Json.obj [("candidates", Json.arr [])])) "p" []
    [("candidates", Json.arr [])] (by decide) rfl (Or.inr rfl)).1

/-- C5: a co-working payload containing a venue whose `rank` lies outside
`[1,5]` cannot validate (success forces the bound), and likewise a community
payload with a `relevanceScore` outside `[1,10]`; on the concrete payload
families the out-of-range value produces the range error. -/
theorem claim5_rank_and_relevance_bounds :
    (∀ fs v xs gs q, coworkingRecommendationSchema (Json.obj fs) = Except.ok v →
      lookupField "recommendations" fs = some (Json.arr xs) →
      Json.obj gs ∈ xs →
      lookupField "rank" gs = some (Json.num q) → 1 ≤ q ∧ q ≤ 5)
  ∧ (∀ fs v xs gs q, communityRecommendationSchema (Json.obj fs) = Except.ok v →
      lookupField "recommendations" fs = some (Json.arr xs) →
      Json.obj gs ∈ xs →
      lookupField "relevanceScore" gs = some (Json.num q) → 1 ≤ q ∧ q ≤ 10)
  ∧ (∀ q : ℚ, q < 1 ∨ 5 < q →
      coworkingRecommendationSchema (coworkingWithRank q)
        = Except.error "Number out of range")
  ∧ (∀ q : ℚ, q < 1 ∨ 10 < q →
      communityRecommendationSchema (communityWithScore q)
        = Except.error "Number out of range") := by
  refine ⟨?_, ?_, ?_, ?_⟩
  · intro fs v xs gs q h h1 h2 h3
    exact coworking_ok_rank h h1 h2 h3
  · intro fs v xs gs q h h1 h2 h3
    exact community_ok_score h h1 h2 h3
  · intro q hq
    have hneg : ¬(1 ≤ q ∧ q ≤ 5) := by
      rintro ⟨h1, h2⟩
      rcases hq with h | h
      · exact absurd h1 (not_le.mpr h)
      · exact absurd h2 (not_le.mpr h)
    simp [coworkingWithRank, venueWithRank, coworkingRecommendationSchema,
      coworkingVenueSchema, reqField, optField, lookupField, vString, vArray,
      vList, vNumRange, hneg]
  · intro q hq
    have hneg : ¬(1 ≤ q ∧ q ≤ 10) := by
      rintro ⟨h1, h2⟩
      rcases hq with h | h
      · exact absurd h1 (not_le.mpr h)
      · exact absurd h2 (not_le.mpr h)
    simp [communityWithScore, communityEntryWithScore, communityRecommendationSchema,
      communityEntrySchema, reqField, optField, lookupField, vString, vArray,
      vList, vNumRange, hneg]

/-- Witness for C5: rank 6 fails the co-working schema with the range issue. -/
theorem claim5_witness :
    coworkingRecommendationSchema (coworkingWithRank 6)
      = Except.error "Number out of range" :=
  claim5_rank_and_relevance_bounds.2.2.1 6 (Or.inr (by norm_num))

/-- C6 counterexample: a payload that passes `conflictAnalysisSchema` but
carries an undeclared field is not returned unchanged — the validated value
differs from the parsed input, refuting the unconditional round-trip. -/
theorem claim6_counterexample :
    conflictAnalysisSchema
        (Json.obj [("hasConflict", Json.bool true), ("extraneous", Json.num 1)])
      = Except.ok (Json.obj [("hasConflict", Json.bool true)])
    ∧ Json.obj [("hasConflict", Json.bool true)]
      ≠ Json.obj [("hasConflict", Json.bool true), ("extraneous", Json.num 1)] := by
  constructor
  · rfl
  · intro h
    simp at h

/-- C6 (amended): for each of the seven features, a payload in the canonical
form of the schema — exactly the declared fields, in declaration order, with
no undeclared fields — validates successfully and is returned unchanged. -/
theorem claim6_roundtrip_canonical :
    (∀ c : ConflictAnalysis,
      conflictAnalysisSchema (encodeConflict c) = Except.ok (encodeConflict c))
  ∧ (∀ c : CoworkingRecommendation,
      coworkingRecommendationSchema (encodeCoworking c) = Except.ok (encodeCoworking c))
  ∧ (∀ t : TimeZoneRecommendation,
      timeZoneRecommendationSchema (encodeTimeZone t) = Except.ok (encodeTimeZone t))
  ∧ (∀ b : BudgetAnalysis,
      budgetAnalysisSchema (encodeBudget b) = Except.ok (encodeBudget b))
  ∧ (∀ c : CommunityRecommendation,
      communityRecommendationSchema (encodeCommunity c) = Except.ok (encodeCommunity c))
  ∧ (∀ l : LegalResource,
      legalResourceSchema (encodeLegal l) = Except.ok (encodeLegal l))
  ∧ (∀ a : AssistantResponse,
      assistantResponseSchema (encodeAssistant a) = Except.ok (encodeAssistant a)) :=
  ⟨rt_conflict, rt_coworking, rt_timeZone, rt_budget, rt_community, rt_legal,
    rt_assistant⟩

/-- C7: the request's `generationConfig` starts from temperature 0.7,
topK 40, topP 0.95, maxOutputTokens 8192, and each default is independently
overridable: a key supplied in `modelParams` replaces exactly that value,
the others keep their defaults. -/
theorem claim7_generation_defaults_overridable (modelParams : List (String × Json)) :
    (∀ prompt, geminiPayload prompt modelParams
      = Json.obj [("contents", Json.arr [Json.obj
          [("parts", Json.arr [Json.obj [("text", Json.str prompt)]])]]),
        ("generationConfig", Json.obj (generationConfig modelParams))])
  ∧ (lookupField "temperature" modelParams = none →
      lookupField "temperature" (generationConfig modelParams) = some (Json.num (7/10)))
  ∧ (∀ v, lookupField "temperature" modelParams = some v →
      lookupField "temperature" (generationConfig modelParams) = some v)
  ∧ (lookupField "topK" modelParams = none →
      lookupField "topK" (generationConfig modelParams) = some (Json.num 40))
  ∧ (∀ v, lookupField "topK" modelParams = some v →
      lookupField "topK" (generationConfig modelParams) = some v)
  ∧ (lookupField "topP" modelParams = none →
      lookupField "topP" (generationConfig modelParams) = some (Json.num (19/20)))
  ∧ (∀ v, lookupField "topP" modelParams = some v →
      lookupField "topP" (generationConfig modelParams) = some v)
  ∧ (lookupField "maxOutputTokens" modelParams = none →
      lookupField "maxOutputTokens" (generationConfig modelParams) = some (Json.num 8192))
  ∧ (∀ v, lookupField "maxOutputTokens" modelParams = some v →
      lookupField "maxOutputTokens" (generationConfig modelParams) = some v) := by
  refine ⟨fun _ => rfl, ?_, ?_, ?_, ?_, ?_, ?_, ?_, ?_⟩ <;>
    intros <;>
    cases h1 : lookupField "temperature" modelParams <;>
    cases h2 : lookupField "topK" modelParams <;>
    cases h3 : lookupField "topP" modelParams <;>
    cases h4 : lookupField "maxOutputTokens" modelParams <;>
    simp_all [generationConfig, mergeSpread, generationDefaults, lookupField]

/-- Witness for C7: overriding only `topK` keeps the other three defaults
and replaces `topK`. -/
theorem claim7_witness :
    lookupField "temperature"
        (generationConfig [("topK", Json.num 10)]) = some (Json.num (7/10))
      ∧ lookupField "topK"
        (generationConfig [("topK", Json.num 10)]) = some (Json.num 10) :=
  ⟨(claim7_generation_defaults_overridable [("topK", Json.num 10)]).2.1 rfl,
   (claim7_generation_defaults_overridable [("topK", Json.num 10)]).2.2.2.2.1
      (Json.num 10) rfl⟩

/-- C9: the Gateway's `{rawResponse: <text>}` fallback object is missing a
required field of every one of the seven schemas, so the non-JSON case that
is a non-error at the Gateway level always surfaces as a thrown `ZodError`
at the public interface (shown for `getAssistantResponse`). -/
theorem claim9_raw_fallback_fails_all_schemas (t : String) :
    conflictAnalysisSchema (rawResponseObj t) = Except.error "Required: hasConflict"
  ∧ coworkingRecommendationSchema (rawResponseObj t)
      = Except.error "Required: recommendations"
  ∧ timeZoneRecommendationSchema (rawResponseObj t)
      = Except.error "Required: optimalMeetingTimes"
  ∧ budgetAnalysisSchema (rawResponseObj t)
      = Except.error "Required: categorizedExpenses"
  ∧ communityRecommendationSchema (rawResponseObj t)
      = Except.error "Required: recommendations"
  ∧ legalResourceSchema (rawResponseObj t)
      = Except.error "Required: authoritativeSources"
  ∧ assistantResponseSchema (rawResponseObj t) = Except.error "Required: response"
  ∧ (∀ parse env fetch query,
      callGeminiAPI parse env fetch (assistantPrompt query) []
        = (Except.ok (rawResponseObj t), 1) →
      getAssistantResponse parse env fetch query
        = (Except.error (JsError.zodError "Required: response"), 1)) := by
  refine ⟨rfl, rfl, rfl, rfl, rfl, rfl, rfl, ?_⟩
  intro parse env fetch query h
  simp only [getAssistantResponse]
  rw [h]
  rfl

/-- Witness for C9: a stubbed upstream returning the non-JSON text "oops"
makes the assistant operation throw the `ZodError` for the missing
`response` field. -/
theorem claim9_witness :
    getAssistantResponse (fun _ => none) (some "key")
      (fun _ _ => FetchResult.success (successBody "oops")) "q"
      = (Except.error (JsError.zodError "Required: response"), 1) :=
  (claim9_raw_fallback_fails_all_schemas "oops").2.2.2.2.2.2.2
    (fun _ => none) (some "key")
    (fun _ _ => FetchResult.success (successBody "oops")) "q" rfl

/-- C10: schema validation silently strips undeclared object fields instead
of rejecting them: each feature's minimal valid payload extended with an
undeclared `extraneous` field still validates, and the validated value omits
that field — so the validated output is not always the parsed input. -/
theorem claim10_unknown_fields_stripped (v : Json) :
    conflictAnalysisSchema (withExtra conflictMinFields v)
      = Except.ok (Json.obj conflictMinFields)
  ∧ coworkingRecommendationSchema (withExtra coworkingMinFields v)
      = Except.ok (Json.obj coworkingMinFields)
  ∧ timeZoneRecommendationSchema (withExtra timeZoneMinFields v)
      = Except.ok (Json.obj timeZoneMinFields)
  ∧ budgetAnalysisSchema (withExtra budgetMinFields v)
      = Except.ok (Json.obj budgetMinFields)
  ∧ communityRecommendationSchema (withExtra communityMinFields v)
      = Except.ok (Json.obj communityMinFields)
  ∧ legalResourceSchema (withExtra legalMinFields v)
      = Except.ok (Json.obj legalMinFields)
  ∧ assistantResponseSchema (withExtra assistantMinFields v)
      = Except.ok (Json.obj assistantMinFields)
  ∧ withExtra conflictMinFields v ≠ Json.obj conflictMinFields := by
  refine ⟨rfl, rfl, rfl, rfl, rfl, rfl, rfl, ?_⟩
  intro h
  simp [withExtra, conflictMinFields] at h

/-! ### Nested required-key infrastructure

Validation success propagates down every container of every schema: a
successful `z.object` forces each required sub-validation to have succeeded,
a successful `z.array` forces each element validation to have succeeded.
Together with per-object required-key lemmas this covers the required fields
at every nesting depth. -/

/-- A successful required-field check on a present key validated its value. -/
theorem reqField_sub {fs : List (String × Json)} {k : String}
    {f : Json → Except String Json} {a j : Json}
    (h : reqField fs k f = Except.ok a) (hk : lookupField k fs = some j) :
    f j = Except.ok a := by
  unfold reqField at h
  rw [hk] at h
  exact h

/-- A successful optional-field check on a present key validated its value. -/
theorem optField_sub {fs : List (String × Json)} {k : String}
    {f : Json → Except String Json} {o : Option Json} {j : Json}
    (h : optField fs k f = Except.ok o) (hk : lookupField k fs = some j) :
    ∃ y, f j = Except.ok y := by
  unfold optField at h
  rw [hk] at h
  obtain ⟨y, hy, _⟩ := bind_eq_ok h
  exact ⟨y, hy⟩

/-- A successful required array field validated every element. -/
theorem reqField_elem {fs : List (String × Json)} {k : String}
    {f : Json → Except String Json} {a : Json} {xs : List Json} {x : Json}
    (h : reqField fs k (vArray f) = Except.ok a)
    (hk : lookupField k fs = some (Json.arr xs)) (hx : x ∈ xs) :
    ∃ y, f x = Except.ok y := by
  have hf := reqField_sub h hk
  simp only [vArray] at hf
  obtain ⟨ys, hys, _⟩ := bind_eq_ok hf
  exact vList_ok_forall hys x hx

/-- A successful optional array field validated every element. -/
theorem optField_elem {fs : List (String × Json)} {k : String}
    {f : Json → Except String Json} {o : Option Json} {xs : List Json} {x : Json}
    (h : optField fs k (vArray f) = Except.ok o)
    (hk : lookupField k fs = some (Json.arr xs)) (hx : x ∈ xs) :
    ∃ y, f x = Except.ok y := by
  obtain ⟨a, ha⟩ := optField_sub h hk
  simp only [vArray] at ha
  obtain ⟨ys, hys, _⟩ := bind_eq_ok ha
  exact vList_ok_forall hys x hx

/-- A validated suggested solution had its required keys. -/
theorem solution_ok_req {gs : List (String × Json)} {y : Json}
    (h : suggestedSolutionSchema (Json.obj gs) = Except.ok y) :
    (lookupField "description" gs).isSome = true
      ∧ (lookupField "pros" gs).isSome = true
      ∧ (lookupField "cons" gs).isSome = true := by
  simp only [suggestedSolutionSchema] at h
  obtain ⟨d, hd, h⟩ := bind_eq_ok h
  obtain ⟨p, hp, h⟩ := bind_eq_ok h
  obtain ⟨c, hc, _⟩ := bind_eq_ok h
  exact ⟨reqField_isSome hd, reqField_isSome hp, reqField_isSome hc⟩

/-- A validated co-working venue had its required keys. -/
theorem venue_ok_req {gs : List (String × Json)} {y : Json}
    (h : coworkingVenueSchema (Json.obj gs) = Except.ok y) :
    (lookupField "name" gs).isSome = true
      ∧ (lookupField "location" gs).isSome = true
      ∧ (lookupField "price" gs).isSome = true
      ∧ (lookupField "amenities" gs).isSome = true
      ∧ (lookupField "matchingCriteria" gs).isSome = true
      ∧ (lookupField "potentialDrawbacks" gs).isSome = true
      ∧ (lookupField "rank" gs).isSome = true := by
  simp only [coworkingVenueSchema] at h
  obtain ⟨n, hn, h⟩ := bind_eq_ok h
  obtain ⟨loc, hloc, h⟩ := bind_eq_ok h
  obtain ⟨_, _, h⟩ := bind_eq_ok h
  obtain ⟨pr, hpr, h⟩ := bind_eq_ok h
  obtain ⟨_, _, h⟩ := bind_eq_ok h
  obtain ⟨am, ham, h⟩ := bind_eq_ok h
  obtain ⟨mc, hmc, h⟩ := bind_eq_ok h
  obtain ⟨pd, hpd, h⟩ := bind_eq_ok h
  obtain ⟨rk, hrk, _⟩ := bind_eq_ok h
  exact ⟨reqField_isSome hn, reqField_isSome hloc, reqField_isSome hpr,
    reqField_isSome ham, reqField_isSome hmc, reqField_isSome hpd,
    reqField_isSome hrk⟩

/-- A validated impact assessment had its required keys. -/
theorem impactA_ok_req {gs : List (String × Json)} {y : Json}
    (h : impactAssessmentSchema (Json.obj gs) = Except.ok y) :
    (lookupField "location" gs).isSome = true
      ∧ (lookupField "localTime" gs).isSome = true
      ∧ (lookupField "impact" gs).isSome = true := by
  simp only [impactAssessmentSchema] at h
  obtain ⟨a, ha, h⟩ := bind_eq_ok h
  obtain ⟨b, hb, h⟩ := bind_eq_ok h
  obtain ⟨c, hc, _⟩ := bind_eq_ok h
  exact ⟨reqField_isSome ha, reqField_isSome hb, reqField_isSome hc⟩

/-- A validated meeting time had its required keys. -/
theorem meetingTime_ok_req {gs : List (String × Json)} {y : Json}
    (h : meetingTimeSchema (Json.obj gs) = Except.ok y) :
    (lookupField "startTime" gs).isSome = true
      ∧ (lookupField "endTime" gs).isSome = true
      ∧ (lookupField "impactAssessment" gs).isSome = true
      ∧ (lookupField "reasoning" gs).isSome = true := by
  simp only [meetingTimeSchema] at h
  obtain ⟨a, ha, h⟩ := bind_eq_ok h
  obtain ⟨b, hb, h⟩ := bind_eq_ok h
  obtain ⟨c, hc, h⟩ := bind_eq_ok h
  obtain ⟨d, hd, _⟩ := bind_eq_ok h
  exact ⟨reqField_isSome ha, reqField_isSome hb, reqField_isSome hc,
    reqField_isSome hd⟩

/-- A validated categorized expense had its required keys. -/
theorem expense_ok_req {gs : List (String × Json)} {y : Json}
    (h : categorizedExpenseSchema (Json.obj gs) = Except.ok y) :
    (lookupField "category" gs).isSome = true
      ∧ (lookupField "amount" gs).isSome = true
      ∧ (lookupField "percentage" gs).isSome = true
      ∧ (lookupField "workRelated" gs).isSome = true := by
  simp only [categorizedExpenseSchema] at h
  obtain ⟨a, ha, h⟩ := bind_eq_ok h
  obtain ⟨b, hb, h⟩ := bind_eq_ok h
  obtain ⟨c, hc, h⟩ := bind_eq_ok h
  obtain ⟨d, hd, _⟩ := bind_eq_ok h
  exact ⟨reqField_isSome ha, reqField_isSome hb, reqField_isSome hc,
    reqField_isSome hd⟩

/-- A validated comparison-to-average had its required keys. -/
theorem comparison_ok_req {gs : List (String × Json)} {y : Json}
    (h : comparisonToAverageSchema (Json.obj gs) = Except.ok y) :
    (lookupField "status" gs).isSome = true
      ∧ (lookupField "details" gs).isSome = true := by
  simp only [comparisonToAverageSchema] at h
  obtain ⟨a, ha, h⟩ := bind_eq_ok h
  obtain ⟨b, hb, _⟩ := bind_eq_ok h
  exact ⟨reqField_isSome ha, reqField_isSome hb⟩

/-- A validated budget recommendation had its required keys. -/
theorem budgetRec_ok_req {gs : List (String × Json)} {y : Json}
    (h : budgetRecommendationSchema (Json.obj gs) = Except.ok y) :
    (lookupField "description" gs).isSome = true
      ∧ (lookupField "implementationDifficulty" gs).isSome = true := by
  simp only [budgetRecommendationSchema] at h
  obtain ⟨a, ha, h⟩ := bind_eq_ok h
  obtain ⟨_, _, h⟩ := bind_eq_ok h
  obtain ⟨c, hc, _⟩ := bind_eq_ok h
  exact ⟨reqField_isSome ha, reqField_isSome hc⟩

/-- A validated community entry had its required keys. -/
theorem communityEntry_ok_req {gs : List (String × Json)} {y : Json}
    (h : communityEntrySchema (Json.obj gs) = Except.ok y) :
    (lookupField "name" gs).isSome = true
      ∧ (lookupField "type" gs).isSome = true
      ∧ (lookupField "relevanceScore" gs).isSome = true
      ∧ (lookupField "description" gs).isSome = true
      ∧ (lookupField "matchingInterests" gs).isSome = true
      ∧ (lookupField "networkingApproach" gs).isSome = true := by
  simp only [communityEntrySchema] at h
  obtain ⟨a, ha, h⟩ := bind_eq_ok h
  obtain ⟨b, hb, h⟩ := bind_eq_ok h
  obtain ⟨c, hc, h⟩ := bind_eq_ok h
  obtain ⟨d, hd, h⟩ := bind_eq_ok h
  obtain ⟨_, _, h⟩ := bind_eq_ok h
  obtain ⟨e, he, h⟩ := bind_eq_ok h
  obtain ⟨f, hf, _⟩ := bind_eq_ok h
  exact ⟨reqField_isSome ha, reqField_isSome hb, reqField_isSome hc,
    reqField_isSome hd, reqField_isSome he, reqField_isSome hf⟩

/-- A validated visa-requirements object had its required keys. -/
theorem visa_ok_req {gs : List (String × Json)} {y : Json}
    (h : visaRequirementsSchema (Json.obj gs) = Except.ok y) :
    (lookupField "requiredVisa" gs).isSome = true
      ∧ (lookupField "stayDuration" gs).isSome = true
      ∧ (lookupField "applicationProcess" gs).isSome = true
      ∧ (lookupField "requiredDocuments" gs).isSome = true
      ∧ (lookupField "processingTime" gs).isSome = true
      ∧ (lookupField "fees" gs).isSome = true := by
  simp only [visaRequirementsSchema] at h
  obtain ⟨a, ha, h⟩ := bind_eq_ok h
  obtain ⟨b, hb, h⟩ := bind_eq_ok h
  obtain ⟨c, hc, h⟩ := bind_eq_ok h
  obtain ⟨d, hd, h⟩ := bind_eq_ok h
  obtain ⟨e, he, h⟩ := bind_eq_ok h
  obtain ⟨f, hf, _⟩ := bind_eq_ok h
  exact ⟨reqField_isSome ha, reqField_isSome hb, reqField_isSome hc,
    reqField_isSome hd, reqField_isSome he, reqField_isSome hf⟩

/-- A validated tax-implications object had its required keys. -/
theorem tax_ok_req {gs : List (String × Json)} {y : Json}
    (h : taxImplicationsSchema (Json.obj gs) = Except.ok y) :
    (lookupField "taxStatus" gs).isSome = true
      ∧ (lookupField "reportingRequirements" gs).isSome = true
      ∧ (lookupField "keyConsiderations" gs).isSome = true := by
  simp only [taxImplicationsSchema] at h
  obtain ⟨a, ha, h⟩ := bind_eq_ok h
  obtain ⟨b, hb, h⟩ := bind_eq_ok h
  obtain ⟨_, _, h⟩ := bind_eq_ok h
  obtain ⟨c, hc, _⟩ := bind_eq_ok h
  exact ⟨reqField_isSome ha, reqField_isSome hb, reqField_isSome hc⟩

/-- A validated work-legality object had its required key. -/
theorem work_ok_req {gs : List (String × Json)} {y : Json}
    (h : workLegalitySchema (Json.obj gs) = Except.ok y) :
    (lookupField "legalStatus" gs).isSome = true := by
  simp only [workLegalitySchema] at h
  obtain ⟨a, ha, _⟩ := bind_eq_ok h
  exact reqField_isSome ha

/-- A validated authoritative source had its required keys. -/
theorem source_ok_req {gs : List (String × Json)} {y : Json}
    (h : authoritativeSourceSchema (Json.obj gs) = Except.ok y) :
    (lookupField "name" gs).isSome = true
      ∧ (lookupField "description" gs).isSome = true := by
  simp only [authoritativeSourceSchema] at h
  obtain ⟨a, ha, h⟩ := bind_eq_ok h
  obtain ⟨_, _, h⟩ := bind_eq_ok h
  obtain ⟨c, hc, _⟩ := bind_eq_ok h
  exact ⟨reqField_isSome ha, reqField_isSome hc⟩

/-- Conflict analysis success validated every suggested solution. -/
theorem conflict_ok_solutions {fs : List (String × Json)} {v : Json}
    {xs : List Json} {x : Json}
    (h : conflictAnalysisSchema (Json.obj fs) = Except.ok v)
    (hk : lookupField "suggestedSolutions" fs = some (Json.arr xs)) (hx : x ∈ xs) :
    ∃ y, suggestedSolutionSchema x = Except.ok y := by
  simp only [conflictAnalysisSchema] at h
  obtain ⟨_, _, h⟩ := bind_eq_ok h
  obtain ⟨_, _, h⟩ := bind_eq_ok h
  obtain ⟨sols, hsols, _⟩ := bind_eq_ok h
  exact optField_elem hsols hk hx

/-- Co-working success validated every venue in the recommendations. -/
theorem coworking_ok_venue {fs : List (String × Json)} {v : Json}
    {xs : List Json} {x : Json}
    (h : coworkingRecommendationSchema (Json.obj fs) = Except.ok v)
    (hk : lookupField "recommendations" fs = some (Json.arr xs)) (hx : x ∈ xs) :
    ∃ y, coworkingVenueSchema x = Except.ok y := by
  simp only [coworkingRecommendationSchema] at h
  obtain ⟨recs, hrecs, _⟩ := bind_eq_ok h
  exact reqField_elem hrecs hk hx

/-- Time-zone success validated every proposed meeting time. -/
theorem tz_ok_meeting {fs : List (String × Json)} {v : Json}
    {xs : List Json} {x : Json}
    (h : timeZoneRecommendationSchema (Json.obj fs) = Except.ok v)
    (hk : lookupField "optimalMeetingTimes" fs = some (Json.arr xs)) (hx : x ∈ xs) :
    ∃ y, meetingTimeSchema x = Except.ok y := by
  simp only [timeZoneRecommendationSchema] at h
  obtain ⟨omt, homt, _⟩ := bind_eq_ok h
  exact reqField_elem homt hk hx

/-- Meeting-time success validated every impact assessment in it. -/
theorem meeting_ok_impact {gs : List (String × Json)} {y : Json}
    {zs : List Json} {z : Json}
    (h : meetingTimeSchema (Json.obj gs) = Except.ok y)
    (hk : lookupField "impactAssessment" gs = some (Json.arr zs)) (hz : z ∈ zs) :
    ∃ w, impactAssessmentSchema z = Except.ok w := by
  simp only [meetingTimeSchema] at h
  obtain ⟨_, _, h⟩ := bind_eq_ok h
  obtain ⟨_, _, h⟩ := bind_eq_ok h
  obtain ⟨ia, hia, _⟩ := bind_eq_ok h
  exact reqField_elem hia hk hz

/-- Budget success validated every categorized expense. -/
theorem budget_ok_expense {fs : List (String × Json)} {v : Json}
    {xs : List Json} {x : Json}
    (h : budgetAnalysisSchema (Json.obj fs) = Except.ok v)
    (hk : lookupField "categorizedExpenses" fs = some (Json.arr xs)) (hx : x ∈ xs) :
    ∃ y, categorizedExpenseSchema x = Except.ok y := by
  simp only [budgetAnalysisSchema] at h
  obtain ⟨ce, hce, _⟩ := bind_eq_ok h
  exact reqField_elem hce hk hx

/-- Budget success validated the comparison-to-average sub-object. -/
theorem budget_ok_comparison {fs : List (String × Json)} {v : Json} {j : Json}
    (h : budgetAnalysisSchema (Json.obj fs) = Except.ok v)
    (hk : lookupField "comparisonToAverage" fs = some j) :
    ∃ y, comparisonToAverageSchema j = Except.ok y := by
  simp only [budgetAnalysisSchema] at h
  obtain ⟨_, _, h⟩ := bind_eq_ok h
  obtain ⟨cmp, hcmp, _⟩ := bind_eq_ok h
  exact ⟨cmp, reqField_sub hcmp hk⟩

/-- Budget success validated every budget recommendation. -/
theorem budget_ok_rec {fs : List (String × Json)} {v : Json}
    {xs : List Json} {x : Json}
    (h : budgetAnalysisSchema (Json.obj fs) = Except.ok v)
    (hk : lookupField "recommendations" fs = some (Json.arr xs)) (hx : x ∈ xs) :
    ∃ y, budgetRecommendationSchema x = Except.ok y := by
  simp only [budgetAnalysisSchema] at h
  obtain ⟨_, _, h⟩ := bind_eq_ok h
  obtain ⟨_, _, h⟩ := bind_eq_ok h
  obtain ⟨recs, hrecs, _⟩ := bind_eq_ok h
  exact reqField_elem hrecs hk hx

/-- Community success validated every community entry. -/
theorem community_ok_entry {fs : List (String × Json)} {v : Json}
    {xs : List Json} {x : Json}
    (h : communityRecommendationSchema (Json.obj fs) = Except.ok v)
    (hk : lookupField "recommendations" fs = some (Json.arr xs)) (hx : x ∈ xs) :
    ∃ y, communityEntrySchema x = Except.ok y := by
  simp only [communityRecommendationSchema] at h
  obtain ⟨recs, hrecs, _⟩ := bind_eq_ok h
  exact reqField_elem hrecs hk hx

/-- Legal success validated a present visa-requirements sub-object. -/
theorem legal_ok_visa {fs : List (String × Json)} {v : Json} {j : Json}
    (h : legalResourceSchema (Json.obj fs) = Except.ok v)
    (hk : lookupField "visaRequirements" fs = some j) :
    ∃ y, visaRequirementsSchema j = Except.ok y := by
  simp only [legalResourceSchema] at h
  obtain ⟨vr, hvr, _⟩ := bind_eq_ok h
  exact optField_sub hvr hk

/-- Legal success validated a present tax-implications sub-object. -/
theorem legal_ok_tax {fs : List (String × Json)} {v : Json} {j : Json}
    (h : legalResourceSchema (Json.obj fs) = Except.ok v)
    (hk : lookupField "taxImplications" fs = some j) :
    ∃ y, taxImplicationsSchema j = Except.ok y := by
  simp only [legalResourceSchema] at h
  obtain ⟨_, _, h⟩ := bind_eq_ok h
  obtain ⟨ti, hti, _⟩ := bind_eq_ok h
  exact optField_sub hti hk

/-- Legal success validated a present work-legality sub-object. -/
theorem legal_ok_work {fs : List (String × Json)} {v : Json} {j : Json}
    (h : legalResourceSchema (Json.obj fs) = Except.ok v)
    (hk : lookupField "workLegality" fs = some j) :
    ∃ y, workLegalitySchema j = Except.ok y := by
  simp only [legalResourceSchema] at h
  obtain ⟨_, _, h⟩ := bind_eq_ok h
  obtain ⟨_, _, h⟩ := bind_eq_ok h
  obtain ⟨wl, hwl, _⟩ := bind_eq_ok h
  exact optField_sub hwl hk

/-- Legal success validated every authoritative source. -/
theorem legal_ok_source {fs : List (String × Json)} {v : Json}
    {xs : List Json} {x : Json}
    (h : legalResourceSchema (Json.obj fs) = Except.ok v)
    (hk : lookupField "authoritativeSources" fs = some (Json.arr xs)) (hx : x ∈ xs) :
    ∃ y, authoritativeSourceSchema x = Except.ok y := by
  simp only [legalResourceSchema] at h
  obtain ⟨_, _, h⟩ := bind_eq_ok h
  obtain ⟨_, _, h⟩ := bind_eq_ok h
  obtain ⟨_, _, h⟩ := bind_eq_ok h
  obtain ⟨src, hsrc, _⟩ := bind_eq_ok h
  exact reqField_elem hsrc hk hx

/-- C2: for every feature operation, a Gateway output that is valid JSON but
is missing a field the feature's schema marks as required — at any nesting
depth — cannot validate, so the operation throws the zod issue as the
distinct, catchable `ZodError` class, never silently defaulting; the gateway
itself (configuration and transport/upstream failures) never produces that
class, so the two kinds are distinguishable.  Clauses: each of the seven
operations converts a schema failure on the gateway's output into a thrown
`ZodError`; the gateway never throws `ZodError`; the two error classes are
distinct; validation success forces every required key of every root schema;
and validation success forces every required key of every nested object
(array elements and sub-objects) reachable in any schema. -/
theorem claim2_missing_required_is_distinct_validation_error :
    (∀ parse env fetch events data m,
      callGeminiAPI parse env fetch (conflictPrompt events) [] = (Except.ok data, 1) →
      conflictAnalysisSchema data = Except.error m →
      analyzeCalendarConflicts parse env fetch events
        = (Except.error (JsError.zodError m), 1))
  ∧ (∀ parse env fetch preferences data m,
      callGeminiAPI parse env fetch (coworkingPrompt preferences) [] = (Except.ok data, 1) →
      coworkingRecommendationSchema data = Except.error m →
      getCoworkingRecommendations parse env fetch preferences
        = (Except.error (JsError.zodError m), 1))
  ∧ (∀ parse env fetch teamInfo data m,
      callGeminiAPI parse env fetch (timeZonePrompt teamInfo) [] = (Except.ok data, 1) →
      timeZoneRecommendationSchema data = Except.error m →
      getTimeZoneRecommendations parse env fetch teamInfo
        = (Except.error (JsError.zodError m), 1))
  ∧ (∀ parse env fetch expenseData data m,
      callGeminiAPI parse env fetch (budgetPrompt expenseData) [] = (Except.ok data, 1) →
      budgetAnalysisSchema data = Except.error m →
      analyzeBudget parse env fetch expenseData
        = (Except.error (JsError.zodError m), 1))
  ∧ (∀ parse env fetch userProfile data m,
      callGeminiAPI parse env fetch (communityPrompt userProfile) [] = (Except.ok data, 1) →
      communityRecommendationSchema data = Except.error m →
      getCommunityRecommendations parse env fetch userProfile
        = (Except.error (JsError.zodError m), 1))
  ∧ (∀ parse env fetch query data m,
      callGeminiAPI parse env fetch (legalPrompt query) [] = (Except.ok data, 1) →
      legalResourceSchema data = Except.error m →
      getLegalResources parse env fetch query
        = (Except.error (JsError.zodError m), 1))
  ∧ (∀ parse env fetch query data m,
      callGeminiAPI parse env fetch (assistantPrompt query) [] = (Except.ok data, 1) →
      assistantResponseSchema data = Except.error m →
      getAssistantResponse parse env fetch query
        = (Except.error (JsError.zodError m), 1))
  ∧ (∀ parse env fetch prompt modelParams m,
      (callGeminiAPI parse env fetch prompt modelParams).1
        ≠ Except.error (JsError.zodError m))
  ∧ (∀ m1 m2, JsError.zodError m1 ≠ JsError.error m2)
  ∧ (∀ fs v, conflictAnalysisSchema (Json.obj fs) = Except.ok v →
      (lookupField "hasConflict" fs).isSome = true)
  ∧ (∀ fs v, coworkingRecommendationSchema (Json.obj fs) = Except.ok v →
      (lookupField "recommendations" fs).isSome = true
        ∧ (lookupField "recommendationSummary" fs).isSome = true)
  ∧ (∀ fs v, timeZoneRecommendationSchema (Json.obj fs) = Except.ok v →
      (lookupField "optimalMeetingTimes" fs).isSome = true)
  ∧ (∀ fs v, budgetAnalysisSchema (Json.obj fs) = Except.ok v →
      (lookupField "categorizedExpenses" fs).isSome = true
        ∧ (lookupField "comparisonToAverage" fs).isSome = true
        ∧ (lookupField "recommendations" fs).isSome = true)
  ∧ (∀ fs v, communityRecommendationSchema (Json.obj fs) = Except.ok v →
      (lookupField "recommendations" fs).isSome = true)
  ∧ (∀ fs v, legalResourceSchema (Json.obj fs) = Except.ok v →
      (lookupField "authoritativeSources" fs).isSome = true
        ∧ (lookupField "disclaimer" fs).isSome = true)
  ∧ (∀ fs v, assistantResponseSchema (Json.obj fs) = Except.ok v →
      (lookupField "response" fs).isSome = true)
  ∧ (∀ fs v xs gs, conflictAnalysisSchema (Json.obj fs) = Except.ok v →
      lookupField "suggestedSolutions" fs = some (Json.arr xs) →
      Json.obj gs ∈ xs →
      (lookupField "description" gs).isSome = true
        ∧ (lookupField "pros" gs).isSome = true
        ∧ (lookupField "cons" gs).isSome = true)
  ∧ (∀ fs v xs gs, coworkingRecommendationSchema (Json.obj fs) = Except.ok v →
      lookupField "recommendations" fs = some (Json.arr xs) →
      Json.obj gs ∈ xs →
      (lookupField "name" gs).isSome = true
        ∧ (lookupField "location" gs).isSome = true
        ∧ (lookupField "price" gs).isSome = true
        ∧ (lookupField "amenities" gs).isSome = true
        ∧ (lookupField "matchingCriteria" gs).isSome = true
        ∧ (lookupField "potentialDrawbacks" gs).isSome = true
        ∧ (lookupField "rank" gs).isSome = true)
  ∧ (∀ fs v xs gs, timeZoneRecommendationSchema (Json.obj fs) = Except.ok v →
      lookupField "optimalMeetingTimes" fs = some (Json.arr xs) →
      Json.obj gs ∈ xs →
      (lookupField "startTime" gs).isSome = true
        ∧ (lookupField "endTime" gs).isSome = true
        ∧ (lookupField "impactAssessment" gs).isSome = true
        ∧ (lookupField "reasoning" gs).isSome = true)
  ∧ (∀ fs v xs gs zs hs, timeZoneRecommendationSchema (Json.obj fs) = Except.ok v →
      lookupField "optimalMeetingTimes" fs = some (Json.arr xs) →
      Json.obj gs ∈ xs →
      lookupField "impactAssessment" gs = some (Json.arr zs) →
      Json.obj hs ∈ zs →
      (lookupField "location" hs).isSome = true
        ∧ (lookupField "localTime" hs).isSome = true
        ∧ (lookupField "impact" hs).isSome = true)
  ∧ (∀ fs v xs gs, budgetAnalysisSchema (Json.obj fs) = Except.ok v →
      lookupField "categorizedExpenses" fs = some (Json.arr xs) →
      Json.obj gs ∈ xs →
      (lookupField "category" gs).isSome = true
        ∧ (lookupField "amount" gs).isSome = true
        ∧ (lookupField "percentage" gs).isSome = true
        ∧ (lookupField "workRelated" gs).isSome = true)
  ∧ (∀ fs v gs, budgetAnalysisSchema (Json.obj fs) = Except.ok v →
      lookupField "comparisonToAverage" fs = some (Json.obj gs) →
      (lookupField "status" gs).isSome = true
        ∧ (lookupField "details" gs).isSome = true)
  ∧ (∀ fs v xs gs, budgetAnalysisSchema (Json.obj fs) = Except.ok v →
      lookupField "recommendations" fs = some (Json.arr xs) →
      Json.obj gs ∈ xs →
      (lookupField "description" gs).isSome = true
        ∧ (lookupField "implementationDifficulty" gs).isSome = true)
  ∧ (∀ fs v xs gs, communityRecommendationSchema (Json.obj fs) = Except.ok v →
      lookupField "recommendations" fs = some (Json.arr xs) →
      Json.obj gs ∈ xs →
      (lookupField "name" gs).isSome = true
        ∧ (lookupField "type" gs).isSome = true
        ∧ (lookupField "relevanceScore" gs).isSome = true
        ∧ (lookupField "description" gs).isSome = true
        ∧ (lookupField "matchingInterests" gs).isSome = true
        ∧ (lookupField "networkingApproach" gs).isSome = true)
  ∧ (∀ fs v gs, legalResourceSchema (Json.obj fs) = Except.ok v →
      lookupField "visaRequirements" fs = some (Json.obj gs) →
      (lookupField "requiredVisa" gs).isSome = true
        ∧ (lookupField "stayDuration" gs).isSome = true
        ∧ (lookupField "applicationProcess" gs).isSome = true
        ∧ (lookupField "requiredDocuments" gs).isSome = true
        ∧ (lookupField "processingTime" gs).isSome = true
        ∧ (lookupField "fees" gs).isSome = true)
  ∧ (∀ fs v gs, legalResourceSchema (Json.obj fs) = Except.ok v →
      lookupField "taxImplications" fs = some (Json.obj gs) →
      (lookupField "taxStatus" gs).isSome = true
        ∧ (lookupField "reportingRequirements" gs).isSome = true
        ∧ (lookupField "keyConsiderations" gs).isSome = true)
  ∧ (∀ fs v gs, legalResourceSchema (Json.obj fs) = Except.ok v →
      lookupField "workLegality" fs = some (Json.obj gs) →
      (lookupField "legalStatus" gs).isSome = true)
  ∧ (∀ fs v xs gs, legalResourceSchema (Json.obj fs) = Except.ok v →
      lookupField "authoritativeSources" fs = some (Json.arr xs) →
      Json.obj gs ∈ xs →
      (lookupField "name" gs).isSome = true
        ∧ (lookupField "description" gs).isSome = true) := by
  refine ⟨?_, ?_, ?_, ?_, ?_, ?_, ?_, ?_, ?_, ?_, ?_, ?_, ?_, ?_, ?_, ?_, ?_,
    ?_, ?_, ?_, ?_, ?_, ?_, ?_, ?_, ?_, ?_, ?_⟩
  · intro parse env fetch events data m h1 h2
    simp only [analyzeCalendarConflicts]
    rw [h1]
    simp only []
    rw [h2]
  · intro parse env fetch preferences data m h1 h2
    simp only [getCoworkingRecommendations]
    rw [h1]
    simp only []
    rw [h2]
  · intro parse env fetch teamInfo data m h1 h2
    simp only [getTimeZoneRecommendations]
    rw [h1]
    simp only []
    rw [h2]
  · intro parse env fetch expenseData data m h1 h2
    simp only [analyzeBudget]
    rw [h1]
    simp only []
    rw [h2]
  · intro parse env fetch userProfile data m h1 h2
    simp only [getCommunityRecommendations]
    rw [h1]
    simp only []
    rw [h2]
  · intro parse env fetch query data m h1 h2
    simp only [getLegalResources]
    rw [h1]
    simp only []
    rw [h2]
  · intro parse env fetch query data m h1 h2
    simp only [getAssistantResponse]
    rw [h1]
    simp only []
    rw [h2]
  · intro parse env fetch prompt modelParams m
    exact callGeminiAPI_ne_zod parse env fetch prompt modelParams m
  · intro m1 m2 h
    exact absurd h (by simp)
  · intro fs v h; exact conflict_ok_req h
  · intro fs v h; exact coworking_ok_req h
  · intro fs v h; exact timeZone_ok_req h
  · intro fs v h; exact budget_ok_req h
  · intro fs v h; exact community_ok_req h
  · intro fs v h; exact legal_ok_req h
  · intro fs v h; exact assistant_ok_req h
  · intro fs v xs gs h hk hx
    obtain ⟨y, hy⟩ := conflict_ok_solutions h hk hx
    exact solution_ok_req hy
  · intro fs v xs gs h hk hx
    obtain ⟨y, hy⟩ := coworking_ok_venue h hk hx
    exact venue_ok_req hy
  · intro fs v xs gs h hk hx
    obtain ⟨y, hy⟩ := tz_ok_meeting h hk hx
    exact meetingTime_ok_req hy
  · intro fs v xs gs zs hs h hk hx hia hz
    obtain ⟨y, hy⟩ := tz_ok_meeting h hk hx
    obtain ⟨w, hw⟩ := meeting_ok_impact hy hia hz
    exact impactA_ok_req hw
  · intro fs v xs gs h hk hx
    obtain ⟨y, hy⟩ := budget_ok_expense h hk hx
    exact expense_ok_req hy
  · intro fs v gs h hk
    obtain ⟨y, hy⟩ := budget_ok_comparison h hk
    exact comparison_ok_req hy
  · intro fs v xs gs h hk hx
    obtain ⟨y, hy⟩ := budget_ok_rec h hk hx
    exact budgetRec_ok_req hy
  · intro fs v xs gs h hk hx
    obtain ⟨y, hy⟩ := community_ok_entry h hk hx
    exact communityEntry_ok_req hy
  · intro fs v gs h hk
    obtain ⟨y, hy⟩ := legal_ok_visa h hk
    exact visa_ok_req hy
  · intro fs v gs h hk
    obtain ⟨y, hy⟩ := legal_ok_tax h hk
    exact tax_ok_req hy
  · intro fs v gs h hk
    obtain ⟨y, hy⟩ := legal_ok_work h hk
    exact work_ok_req hy
  · intro fs v xs gs h hk hx
    obtain ⟨y, hy⟩ := legal_ok_source h hk hx
    exact source_ok_req hy

/-- Witness for C2: a stubbed upstream answering `{}` (missing the required
top-level `hasConflict`) makes the calendar operation throw the `ZodError`
class, and one answering a budget payload whose `comparisonToAverage` lacks
the nested required `status` makes the budget operation throw the `ZodError`
for that nested field. -/
theorem claim2_witness :
    analyzeCalendarConflicts (fun _ => some (Json.obj [])) (some "key")
      (fun _ _ => FetchResult.success (successBody "x")) Json.null
      = (Except.error (JsError.zodError "Required: hasConflict"), 1)
  ∧ analyzeBudget (fun _ => some (Json.obj
        [("categorizedExpenses", Json.arr []),
         ("comparisonToAverage", Json.obj [("details", Json.str "")]),
         ("recommendations", Json.arr [])])) (some "key")
      (fun _ _ => FetchResult.success (successBody "x")) Json.null
      = (Except.error (JsError.zodError "Required: status"), 1) :=
  ⟨claim2_missing_required_is_distinct_validation_error.1
      (fun _ => some (Json.obj [])) (some "key")
      (fun _ _ => FetchResult.success (successBody "x")) Json.null
      (Json.obj []) "Required: hasConflict" rfl rfl,
   claim2_missing_required_is_distinct_validation_error.2.2.2.1
      (fun _ => some (Json.obj
        [("categorizedExpenses", Json.arr []),
         ("comparisonToAverage", Json.obj [("details", Json.str "")]),
         ("recommendations", Json.arr [])])) (some "key")
      (fun _ _ => FetchResult.success (successBody "x")) Json.null
      (Json.obj
        [("categorizedExpenses", Json.arr []),
         ("comparisonToAverage", Json.obj [("details", Json.str "")]),
         ("recommendations", Json.arr [])]) "Required: status" rfl rfl⟩

/-- C8 counterexample: `getLegalResources` does not embed its caller-supplied
data by verbatim serialization.  Two distinct queries with distinct
`JSON.stringify` serializations — differing in a `country` field — produce
the character-for-character identical prompt, because the prompt embeds only
the string coercion of `query.question`; consequently no fixed head and tail
can decompose `legalPrompt` around the serialized data. -/
theorem claim8_counterexample :
    legalPrompt (Json.obj [("question", Json.str "q"), ("country", Json.str "PT")])
        = legalPrompt (Json.obj [("question", Json.str "q")])
    ∧ Json.obj [("question", Json.str "q"), ("country", Json.str "PT")]
        ≠ Json.obj [("question", Json.str "q")]
    ∧ stringify2 (Json.obj [("question", Json.str "q"), ("country", Json.str "PT")])
        ≠ stringify2 (Json.obj [("question", Json.str "q")])
    ∧ ¬ ∃ head tail : String, ∀ query : Json,
        legalPrompt query = head ++ stringify2 query ++ tail := by
  refine ⟨rfl, ?_, by decide, ?_⟩
  · intro h
    simp at h
  · rintro ⟨head, tail, h⟩
    have h1 := h (Json.obj [("question", Json.str "q"), ("country", Json.str "PT")])
    have h2 := h (Json.obj [("question", Json.str "q")])
    have heq : head
          ++ stringify2 (Json.obj [("question", Json.str "q"), ("country", Json.str "PT")])
          ++ tail
        = head ++ stringify2 (Json.obj [("question", Json.str "q")]) ++ tail := by
      rw [← h1, ← h2]
      rfl
    have hlen := congrArg String.length heq
    simp only [String.length_append] at hlen
    have hne : (stringify2 (Json.obj [("question", Json.str "q"), ("country", Json.str "PT")])).length
        ≠ (stringify2 (Json.obj [("question", Json.str "q")])).length := by decide
    omega

/-- C8 (amended): prompt construction in every one of the seven feature
operations is a pure, deterministic function of the caller-supplied data —
equal inputs give character-for-character identical prompts.  The data is
embedded verbatim as `JSON.stringify(data, null, 2)` in the five
stringify-based features (conflict, co-working, time-zone, budget,
community); `getAssistantResponse` embeds the query string itself verbatim;
`getLegalResources` embeds only the string coercion of `query.question`,
not a serialization of the whole query object. -/
theorem claim8_prompt_determinism_and_embedding :
    (∀ events1 events2 : Json, events1 = events2 →
      conflictPrompt events1 = conflictPrompt events2)
  ∧ (∀ prefs1 prefs2 : Json, prefs1 = prefs2 →
      coworkingPrompt prefs1 = coworkingPrompt prefs2)
  ∧ (∀ team1 team2 : Json, team1 = team2 →
      timeZonePrompt team1 = timeZonePrompt team2)
  ∧ (∀ exp1 exp2 : Json, exp1 = exp2 →
      budgetPrompt exp1 = budgetPrompt exp2)
  ∧ (∀ prof1 prof2 : Json, prof1 = prof2 →
      communityPrompt prof1 = communityPrompt prof2)
  ∧ (∀ query1 query2 : Json, query1 = query2 →
      legalPrompt query1 = legalPrompt query2)
  ∧ (∀ query1 query2 : String, query1 = query2 →
      assistantPrompt query1 = assistantPrompt query2)
  ∧ (∀ events, conflictPrompt events
      = conflictPromptHead ++ stringify2 events ++ conflictPromptTail)
  ∧ (∀ preferences, coworkingPrompt preferences
      = coworkingPromptHead ++ stringify2 preferences ++ coworkingPromptTail)
  ∧ (∀ teamInfo, timeZonePrompt teamInfo
      = timeZonePromptHead ++ stringify2 teamInfo ++ timeZonePromptTail)
  ∧ (∀ expenseData, budgetPrompt expenseData
      = budgetPromptHead ++ stringify2 expenseData ++ budgetPromptTail)
  ∧ (∀ userProfile, communityPrompt userProfile
      = communityPromptHead ++ stringify2 userProfile ++ communityPromptTail)
  ∧ (∀ query, legalPrompt query
      = legalPromptHead ++ questionText query ++ legalPromptTail)
  ∧ (∀ query, assistantPrompt query
      = assistantPromptHead ++ query ++ assistantPromptTail) :=
  ⟨fun _ _ h => by rw [h], fun _ _ h => by rw [h], fun _ _ h => by rw [h],
   fun _ _ h => by rw [h], fun _ _ h => by rw [h], fun _ _ h => by rw [h],
   fun _ _ h => by rw [h], fun _ => rfl, fun _ => rfl, fun _ => rfl,
   fun _ => rfl, fun _ => rfl, fun _ => rfl, fun _ => rfl⟩

/-- Witness for C8 at concrete inputs: determinism instantiated for the
conflict and legal prompts. -/
theorem claim8_witness :
    conflictPrompt (Json.num 1) = conflictPrompt (Json.num 1)
    ∧ legalPrompt (Json.str "x") = legalPrompt (Json.str "x") :=
  ⟨claim8_prompt_determinism_and_embedding.1 (Json.num 1) (Json.num 1) rfl,
   claim8_prompt_determinism_and_embedding.2.2.2.2.2.1
      (Json.str "x") (Json.str "x") rfl⟩
